import Mathlib

/-!
Shallow embedding of the reservation / waiting-list / chat core of the
`stoop` marketplace client (`src/services/firebaseApi.ts`).

The repository ships two observed variants of the service module,
concatenated in the source file.  They are embedded here as two
namespaces:

* `Stoop.V1` — the transactional variant (first half of the file):
  every mutating operation runs inside `db.runTransaction`, reads first,
  writes last; `createReservation` marks the ad reserved, and
  `updateReservationStatus(DECLINED)` promotes the waiting-list head.
* `Stoop.V2` — the batch variant (second half of the file):
  `createReservation` only creates the reservation document (the ad is
  left untouched), and `updateReservationStatus(ACCEPTED)` auto-declines
  every other PENDING reservation for the same ad in one batch commit.

The Firestore document store is modelled as association lists from
document ids to records; `db.runTransaction` / `db.batch()` both give
all-or-nothing semantics, modelled by operations of type
`DB → Except String DB`: an `Except.error` result is an aborted
transaction, leaving the caller with the unchanged previous state.
Fresh Firestore document ids are modelled by a deterministic counter
(`DB.nextId`).  Timestamps, GPS coordinates and profile-photo URLs carry
no logic in the verified operations and are omitted; notification
message texts are kept as functions of the same inputs the source
interpolates, with the Italian literals transliterated to plain ASCII.
-/

namespace Stoop

/-- `ReservationStatus` enum from `types.ts`; the absent Firestore field
("NONE") is modelled as `Option.none` at use sites. -/
inductive ReservationStatus where
  | pending
  | accepted
  | declined
  | cancelled
  | completed
deriving DecidableEq, Repr

/-- The fields of a `users` document that the verified operations read
(`firstName`, `lastName`, `nickname` feed `getUserDisplayName`). -/
structure User where
  firstName : String
  lastName : String
  nickname : Option String
deriving DecidableEq, Repr

/-- `String.prototype.trim()`, written over the character list so it
reduces definitionally. -/
def strTrim (s : String) : String :=
  ⟨((s.data.dropWhile Char.isWhitespace).reverse.dropWhile Char.isWhitespace).reverse⟩

/-- `charAt(0)` (empty string when the input is empty). -/
def strHead (s : String) : String :=
  ⟨s.data.take 1⟩

/-- `getUserDisplayName` from `utils/displayUtils.ts`: nickname when
non-blank, otherwise first name (falling back to a placeholder when
empty, as the JS `||` does) plus the last-name initial. -/
def getUserDisplayName (u : User) : String :=
  match u.nickname with
  | some n =>
    if strTrim n ≠ "" then n
    else displayFromNames u
  | none => displayFromNames u
where
  displayFromNames (u : User) : String :=
    let firstName := if u.firstName = "" then "Utente" else u.firstName
    let lastNameInitial := if u.lastName = "" then "" else " " ++ strHead u.lastName ++ "."
    strTrim (firstName ++ lastNameInitial)

/-- `FirestoreAdData` from `types.ts` (reservation-relevant fields;
optional Firestore fields read back with `|| false` / `|| []` defaults in
`_mapAdDataToAd` are stored here already defaulted). -/
structure FirestoreAdData where
  userId : String
  title : String
  description : String
  category : String
  images : List String
  locationName : String
  isReserved : Bool
  reservedByUserId : Option String
  reservationStatus : Option ReservationStatus
  waitingListUserIds : List String
  tags : List String
  isStreetFind : Bool
deriving DecidableEq, Repr

/-- A `reservations` document (`Reservation` in `types.ts`). -/
structure Reservation where
  adId : String
  adTitle : String
  adMainImage : String
  requesterId : String
  requesterName : String
  ownerId : String
  status : ReservationStatus
  chatSessionId : Option String
deriving DecidableEq, Repr

/-- A message in a chat session's `messages` sub-collection. -/
structure ChatMessage where
  senderId : String
  text : String
  isSystemMessage : Bool
deriving DecidableEq, Repr

/-- A `chatSessions` document, with its `messages` sub-collection
carried inline. -/
structure ChatSession where
  participantIds : List String
  adId : String
  adTitle : String
  lastMessageText : Option String
  isClosed : Bool
  closedByUserId : Option String
  reservationWasAccepted : Bool
  reservationId : Option String
  messages : List ChatMessage
deriving DecidableEq, Repr

/-- The closed set of notification `type` tags used by the embedded
operations. -/
inductive NotificationType where
  | reservationRequest
  | reservationAccepted
  | reservationDeclined
  | waitingListJoined
  | ownerWaitingListUpdate
  | promotedFromWaitingList
  | streetFindPickedUp
  | exchangeCompleted
  | newMessage
deriving DecidableEq, Repr

/-- The `reservationDetails` snapshot attached to some notifications. -/
structure ReservationDetails where
  adId : String
  adTitle : String
  requesterName : String
  reservationId : String
deriving DecidableEq, Repr

/-- An `AppNotification` document. -/
structure AppNotification where
  userId : String
  type : NotificationType
  title : String
  message : String
  relatedItemId : String
  isRead : Bool
  reservationDetails : Option ReservationDetails
deriving DecidableEq, Repr

/-- The remote document store: one association list per collection,
plus the deterministic fresh-id counter. -/
structure DB where
  users : List (String × User)
  ads : List (String × FirestoreAdData)
  reservations : List (String × Reservation)
  chatSessions : List (String × ChatSession)
  notifications : List (String × AppNotification)
  nextId : Nat
deriving DecidableEq, Repr

/-- Document lookup by id (`collection.doc(id).get()`). -/
def findDoc {α : Type} (docs : List (String × α)) (id : String) : Option α :=
  (docs.find? (fun d => d.fst == id)).map Prod.snd

/-- In-place document update (`transaction.update` on an existing doc). -/
def updateDoc {α : Type} (docs : List (String × α)) (id : String) (f : α → α) :
    List (String × α) :=
  docs.map (fun d => if d.fst == id then (d.fst, f d.snd) else d)

/-- Fresh Firestore document id from the counter. -/
def genId (n : Nat) : String := "doc_" ++ toString n

/-- `id.includes("..")` over the character list. -/
def hasDoubleDot : List Char → Bool
  | [] => false
  | [_] => false
  | c1 :: c2 :: rest => (c1 = '.' && c2 = '.') || hasDoubleDot (c2 :: rest)

/-- `isValidId` from `firebaseApi.ts`: a non-blank string containing
neither `/` nor the two-dot sequence. -/
def isValidId (id : String) : Bool :=
  strTrim id ≠ "" && !(id.data.contains '/') && !(hasDoubleDot id.data)

-- Error message codes (the source throws Italian `Error` messages; each
-- distinct message is represented by one distinct code).
def errAdNotFound : String := "ERR_AD_NOT_FOUND"
def errRequesterNotFound : String := "ERR_REQUESTER_NOT_FOUND"
def errUserNotFound : String := "ERR_USER_NOT_FOUND"
def errStreetFindNotReservable : String := "ERR_STREET_FIND_NOT_RESERVABLE"
def errOwnAd : String := "ERR_OWN_AD"
def errAlreadyReserved : String := "ERR_ALREADY_RESERVED"
def errInvalidId : String := "ERR_INVALID_ID"
def errStreetFindNoWaitingList : String := "ERR_STREET_FIND_NO_WAITING_LIST"
def errOwnAdWaitingList : String := "ERR_OWN_AD_WAITING_LIST"
def errActiveRequest : String := "ERR_ACTIVE_REQUEST"
def errAlreadyOnWaitingList : String := "ERR_ALREADY_ON_WAITING_LIST"
def errAdCompleted : String := "ERR_AD_COMPLETED"
def errNotYetReserved : String := "ERR_NOT_YET_RESERVED"
def errReservationNotFound : String := "ERR_RESERVATION_NOT_FOUND"
def errRelatedAdNotFound : String := "ERR_RELATED_AD_NOT_FOUND"
def errUnauthorizedReservation : String := "ERR_UNAUTHORIZED_RESERVATION"
def errNotificationNotFound : String := "ERR_NOTIFICATION_NOT_FOUND"
def errNotStreetFind : String := "ERR_NOT_STREET_FIND"
def errAlreadyPickedUp : String := "ERR_ALREADY_PICKED_UP"
def errPickerNotFound : String := "ERR_PICKER_NOT_FOUND"
def errTwoParticipants : String := "ERR_TWO_PARTICIPANTS"
def errChatNotFound : String := "ERR_CHAT_NOT_FOUND"
def errUnauthorizedChat : String := "ERR_UNAUTHORIZED_CHAT"
def errDuplicateRequest : String := "ERR_DUPLICATE_REQUEST"

/-- Lexicographic code-point comparison of two character lists
(`a <= b`), as JS string comparison orders the participant ids. -/
def charListLe : List Char → List Char → Bool
  | [], _ => true
  | _ :: _, [] => false
  | c1 :: t1, c2 :: t2 =>
    if c1.toNat < c2.toNat then true
    else if c2.toNat < c1.toNat then false
    else charListLe t1 t2

/-- Lexicographic string comparison. -/
def strLe (a b : String) : Bool := charListLe a.data b.data

/-- Insert a string into a sorted list, keeping it sorted. -/
def insertSorted (x : String) : List String → List String
  | [] => [x]
  | y :: ys => if strLe x y then x :: y :: ys else y :: insertSorted x ys

/-- `Array.prototype.sort()` on participant-id lists (lexicographic). -/
def sortIds : List String → List String
  | [] => []
  | x :: xs => insertSorted x (sortIds xs)

/-- The chat-session lookup key query:
`where participantIds == ids`, `where adId == adId`, `limit(1)`. -/
def findChatByKey (s : DB) (ids : List String) (adId : String) :
    Option (String × ChatSession) :=
  s.chatSessions.find? (fun c => c.snd.participantIds == ids && c.snd.adId == adId)

/-- The `originalNotificationId` write of `updateReservationStatus`
(both variants): when supplied and valid it is marked read inside the
same commit; `transaction.update`/`batch.update` on a missing document
aborts the whole commit. -/
def markOriginalNotification (s : DB) (originalNotificationId : Option String) :
    Except String DB :=
  match originalNotificationId with
  | none => .ok s
  | some nid =>
    if isValidId nid then
      match findDoc s.notifications nid with
      | none => .error errNotificationNotFound
      | some _ =>
        .ok { s with notifications :=
                updateDoc s.notifications nid (fun n => { n with isRead := true }) }
    else .ok s

namespace V1

/-- `createReservation(adId, requesterId)` — transactional variant.
Reads the ad and the requester, validates (street find / own ad /
already reserved), then in one atomic commit creates the PENDING
reservation, marks the ad reserved, and notifies the owner
(RESERVATION_REQUEST). -/
def createReservation (s : DB) (adId requesterId : String) : Except String DB :=
  if ¬ isValidId adId then .error errInvalidId
  else if ¬ isValidId requesterId then .error errInvalidId
  else
    match findDoc s.ads adId with
    | none => .error errAdNotFound
    | some adData =>
      match findDoc s.users requesterId with
      | none => .error errRequesterNotFound
      | some requester =>
        if adData.isStreetFind then .error errStreetFindNotReservable
        else if adData.userId == requesterId then .error errOwnAd
        else if adData.isReserved then .error errAlreadyReserved
        else
          let reservationId := genId s.nextId
          let notifId := genId (s.nextId + 1)
          let newReservation : Reservation :=
            { adId := adId
              adTitle := adData.title
              adMainImage := adData.images.headD ""
              requesterId := requesterId
              requesterName := getUserDisplayName requester
              ownerId := adData.userId
              status := ReservationStatus.pending
              chatSessionId := none }
          let ownerNotification : AppNotification :=
            { userId := adData.userId
              type := NotificationType.reservationRequest
              title := "Nuova richiesta per " ++ adData.title
              message := getUserDisplayName requester ++
                " ha richiesto il tuo oggetto: " ++ adData.title
              relatedItemId := reservationId
              isRead := false
              reservationDetails := some
                { adId := adId
                  adTitle := adData.title
                  requesterName := getUserDisplayName requester
                  reservationId := reservationId } }
          .ok
            { s with
              reservations := s.reservations ++ [(reservationId, newReservation)]
              ads := updateDoc s.ads adId (fun a =>
                { a with
                  isReserved := true
                  reservedByUserId := some requesterId
                  reservationStatus := some ReservationStatus.pending })
              notifications := s.notifications ++ [(notifId, ownerNotification)]
              nextId := s.nextId + 2 }

/-- `joinWaitingList(adId, userId)` — appends the user to the end of
`waitingListUserIds` (via `arrayUnion`, which is a plain append here
because membership was just checked) and notifies joiner and owner. -/
def joinWaitingList (s : DB) (adId userId : String) : Except String DB :=
  if ¬ isValidId adId then .error errInvalidId
  else if ¬ isValidId userId then .error errInvalidId
  else
    match findDoc s.ads adId with
    | none => .error errAdNotFound
    | some adData =>
      match findDoc s.users userId with
      | none => .error errUserNotFound
      | some user =>
        if adData.isStreetFind then .error errStreetFindNoWaitingList
        else if adData.userId == userId then .error errOwnAdWaitingList
        else if adData.reservedByUserId == some userId then .error errActiveRequest
        else if adData.waitingListUserIds.contains userId then .error errAlreadyOnWaitingList
        else if adData.reservationStatus == some ReservationStatus.completed then
          .error errAdCompleted
        else if ¬ adData.isReserved then .error errNotYetReserved
        else
          let joinerNotification : AppNotification :=
            { userId := userId
              type := NotificationType.waitingListJoined
              title := "Ti sei unito alla lista di attesa per " ++ adData.title
              message := "Sei stato aggiunto alla lista di attesa."
              relatedItemId := adId
              isRead := false
              reservationDetails := none }
          let ownerNotification : AppNotification :=
            { userId := adData.userId
              type := NotificationType.ownerWaitingListUpdate
              title := "Nuovo utente in lista di attesa per " ++ adData.title
              message := getUserDisplayName user ++
                " si e unito alla lista di attesa per il tuo oggetto: " ++ adData.title
              relatedItemId := adId
              isRead := false
              reservationDetails := none }
          .ok
            { s with
              ads := updateDoc s.ads adId (fun a =>
                { a with waitingListUserIds := a.waitingListUserIds ++ [userId] })
              notifications := s.notifications ++
                [(genId s.nextId, joinerNotification), (genId (s.nextId + 1), ownerNotification)]
              nextId := s.nextId + 2 }

/-- The RESERVATION_DECLINED notification to the declined requester,
appended at the end of the DECLINED branch of `updateReservationStatus`. -/
def declinedRequesterNotify (s : DB) (reservationData : Reservation)
    (reservationId : String) : Except String DB :=
  let notif : AppNotification :=
    { userId := reservationData.requesterId
      type := NotificationType.reservationDeclined
      title := "Prenotazione per " ++ reservationData.adTitle ++ " rifiutata"
      message := "La tua richiesta per " ++ reservationData.adTitle ++ " e stata rifiutata."
      relatedItemId := reservationData.adId
      isRead := false
      reservationDetails := some
        { adId := reservationData.adId
          adTitle := reservationData.adTitle
          requesterName := reservationData.requesterName
          reservationId := reservationId } }
  .ok { s with
        notifications := s.notifications ++ [(genId s.nextId, notif)]
        nextId := s.nextId + 1 }

/-- `updateReservationStatus(reservationId, newStatus, currentUserId,
originalNotificationId?)` — transactional variant.  The chat-session
query runs outside the transaction; all document reads happen before the
writes; the owner check guards every write.  On ACCEPTED the ad is
re-marked reserved for the requester and the chat session is reused (and
reopened) or created; on DECLINED the waiting-list head (when present
and existing) is promoted to a fresh PENDING reservation, otherwise the
ad's reservation fields are cleared. -/
def updateReservationStatus (s : DB) (reservationId : String)
    (newStatus : ReservationStatus) (currentUserId : String)
    (originalNotificationId : Option String) : Except String DB :=
  if ¬ isValidId reservationId then .error errInvalidId
  else if ¬ isValidId currentUserId then .error errInvalidId
  else
    let existingChatDocId : Option String :=
      if newStatus == ReservationStatus.accepted then
        match findDoc s.reservations reservationId with
        | none => none
        | some r =>
          (findChatByKey s (sortIds [r.ownerId, r.requesterId]) r.adId).map Prod.fst
      else none
    match findDoc s.reservations reservationId with
    | none => .error errReservationNotFound
    | some reservationData =>
      match findDoc s.ads reservationData.adId with
      | none => .error errRelatedAdNotFound
      | some adData =>
        let adWaitingList := adData.waitingListUserIds
        let nextRequester : Option User :=
          if newStatus == ReservationStatus.declined then
            match adWaitingList with
            | [] => none
            | u :: _ => findDoc s.users u
          else none
        if reservationData.ownerId ≠ currentUserId then .error errUnauthorizedReservation
        else
          let newReservations := updateDoc s.reservations reservationId (fun r => { r with status := newStatus })
          let s1 := { s with reservations := newReservations }
          match markOriginalNotification s1 originalNotificationId with
          | .error e => .error e
          | .ok s2 =>
            if newStatus == ReservationStatus.accepted then
              let chatStep : DB × String :=
                match existingChatDocId with
                | some chatId =>
                  ({ s2 with chatSessions := updateDoc s2.chatSessions chatId (fun c =>
                      { c with
                        isClosed := false
                        closedByUserId := none
                        reservationWasAccepted := true
                        reservationId := some reservationId }) }, chatId)
                | none =>
                  let chatId := genId s2.nextId
                  let newChat : ChatSession :=
                    { participantIds :=
                        sortIds [reservationData.ownerId, reservationData.requesterId]
                      adId := reservationData.adId
                      adTitle := reservationData.adTitle
                      lastMessageText := none
                      isClosed := false
                      closedByUserId := none
                      reservationWasAccepted := true
                      reservationId := some reservationId
                      messages := [] }
                  ({ s2 with
                      chatSessions := s2.chatSessions ++ [(chatId, newChat)]
                      nextId := s2.nextId + 1 }, chatId)
              let s3 := chatStep.1
              let chatSessionId := chatStep.2
              let s4 := { s3 with
                reservations := updateDoc s3.reservations reservationId
                  (fun r => { r with chatSessionId := some chatSessionId })
                ads := updateDoc s3.ads reservationData.adId (fun a =>
                  { a with
                    reservationStatus := some newStatus
                    isReserved := true
                    reservedByUserId := some reservationData.requesterId }) }
              let notif : AppNotification :=
                { userId := reservationData.requesterId
                  type := NotificationType.reservationAccepted
                  title := "Prenotazione per " ++ reservationData.adTitle ++ " accettata"
                  message := "La tua richiesta per " ++ reservationData.adTitle ++
                    " e stata accettata. Puoi ora chattare con il proprietario."
                  relatedItemId := chatSessionId
                  isRead := false
                  reservationDetails := some
                    { adId := reservationData.adId
                      adTitle := reservationData.adTitle
                      requesterName := reservationData.requesterName
                      reservationId := reservationId } }
              .ok { s4 with
                    notifications := s4.notifications ++ [(genId s4.nextId, notif)]
                    nextId := s4.nextId + 1 }
            else if newStatus == ReservationStatus.declined then
              match adWaitingList, nextRequester with
              | nextUserId :: remainingWaitingList, some nextReq =>
                let newReservationId := genId s2.nextId
                let newReservationData : Reservation :=
                  { adId := reservationData.adId
                    adTitle := adData.title
                    adMainImage := adData.images.headD ""
                    requesterId := nextUserId
                    requesterName := getUserDisplayName nextReq
                    ownerId := adData.userId
                    status := ReservationStatus.pending
                    chatSessionId := none }
                let ownerNotif : AppNotification :=
                  { userId := adData.userId
                    type := NotificationType.promotedFromWaitingList
                    title := "Nuova richiesta da lista di attesa"
                    message := getUserDisplayName nextReq ++
                      " e ora il primo in coda per " ++ adData.title
                    relatedItemId := newReservationId
                    isRead := false
                    reservationDetails := some
                      { adId := reservationData.adId
                        adTitle := adData.title
                        requesterName := getUserDisplayName nextReq
                        reservationId := newReservationId } }
                let s3 := { s2 with
                  reservations := s2.reservations ++ [(newReservationId, newReservationData)]
                  notifications := s2.notifications ++ [(genId (s2.nextId + 1), ownerNotif)]
                  ads := updateDoc s2.ads reservationData.adId (fun a =>
                    { a with
                      isReserved := true
                      reservedByUserId := some nextUserId
                      reservationStatus := some ReservationStatus.pending
                      waitingListUserIds := remainingWaitingList })
                  nextId := s2.nextId + 2 }
                declinedRequesterNotify s3 reservationData reservationId
              | _, _ =>
                let s3 := { s2 with
                  ads := updateDoc s2.ads reservationData.adId (fun a =>
                    { a with
                      isReserved := false
                      reservedByUserId := none
                      reservationStatus := none
                      waitingListUserIds := [] }) }
                declinedRequesterNotify s3 reservationData reservationId
            else
              .ok { s2 with
                    ads := updateDoc s2.ads reservationData.adId (fun a =>
                      { a with reservationStatus := some newStatus }) }

/-- `claimStreetFind(adId, pickerUserId, adOwnerId, adTitle)` —
transactional variant.  Note that the STREET_FIND_PICKED_UP
notification is addressed to the caller-supplied `adOwnerId` argument
and its texts use the caller-supplied `adTitle` argument; neither is
checked against the stored ad document. -/
def claimStreetFind (s : DB) (adId pickerUserId adOwnerId adTitle : String) :
    Except String DB :=
  if ¬ isValidId adId then .error errInvalidId
  else if ¬ isValidId pickerUserId then .error errInvalidId
  else if ¬ isValidId adOwnerId then .error errInvalidId
  else
    match findDoc s.ads adId with
    | none => .error errAdNotFound
    | some adData =>
      match findDoc s.users pickerUserId with
      | none => .error errPickerNotFound
      | some pickerUser =>
        if ¬ adData.isStreetFind then .error errNotStreetFind
        else if adData.reservationStatus == some ReservationStatus.completed then
          .error errAlreadyPickedUp
        else
          let ownerNotification : AppNotification :=
            { userId := adOwnerId
              type := NotificationType.streetFindPickedUp
              title := "Oggetto " ++ adTitle ++ " ritirato"
              message := getUserDisplayName pickerUser ++
                " ha segnato il tuo oggetto " ++ adTitle ++ " come ritirato dalla strada."
              relatedItemId := adId
              isRead := false
              reservationDetails := none }
          .ok { s with
                ads := updateDoc s.ads adId (fun a =>
                  { a with
                    isReserved := true
                    reservedByUserId := some pickerUserId
                    reservationStatus := some ReservationStatus.completed })
                notifications := s.notifications ++ [(genId s.nextId, ownerNotification)]
                nextId := s.nextId + 1 }

/-- `createChatSession(participantIds, adId, adTitle, reservationId?,
reservationWasAccepted)` — sorts the participant pair, looks up an
existing session for `(sortedParticipantIds, adId)`, and reuses/reopens
it when found (setting `reservationWasAccepted` when newly requested and
clearing the closed flags when it was closed); otherwise creates a new
session.  Returns the resulting state and the session's document id. -/
def createChatSession (s : DB) (participantIds : List String) (adId adTitle : String)
    (reservationId : Option String) (reservationWasAccepted : Bool) :
    Except String (DB × String) :=
  if participantIds.length ≠ 2 then .error errTwoParticipants
  else if ¬ isValidId (participantIds.headD "") then .error errInvalidId
  else if ¬ isValidId (participantIds.getD 1 "") then .error errInvalidId
  else if ¬ isValidId adId then .error errInvalidId
  else
    let sortedParticipantIds := sortIds participantIds
    match findChatByKey s sortedParticipantIds adId with
    | some (sessionId, sessionData) =>
      let upd := fun (c : ChatSession) =>
        let c1 := if reservationWasAccepted && !sessionData.reservationWasAccepted
          then { c with reservationWasAccepted := true } else c
        if sessionData.isClosed
          then { c1 with isClosed := false, closedByUserId := none } else c1
      .ok ({ s with chatSessions := updateDoc s.chatSessions sessionId upd }, sessionId)
    | none =>
      let chatId := genId s.nextId
      let newSession : ChatSession :=
        { participantIds := sortedParticipantIds
          adId := adId
          adTitle := adTitle
          lastMessageText := none
          isClosed := false
          closedByUserId := none
          reservationWasAccepted := reservationWasAccepted
          reservationId := reservationId
          messages := [] }
      .ok ({ s with
             chatSessions := s.chatSessions ++ [(chatId, newSession)]
             nextId := s.nextId + 1 }, chatId)

/-- The display name the chat code computes for a participant id
(`_mapChatSessionData` falls back to a placeholder user when the id
cannot be resolved). -/
def participantDisplay (s : DB) (id : String) : String :=
  match findDoc s.users id with
  | some u => getUserDisplayName u
  | none => getUserDisplayName { firstName := "Utente", lastName := "Sconosciuto", nickname := none }

/-- `sendChatMessage(chatId, senderId, text)` — appends the message,
updates the denormalized last-message fields, and resets `isClosed` to
`false` (the update payload always writes `isClosed: false` and deletes
`closedByUserId`); then notifies the other participant (NEW_MESSAGE).
There is no closed-session check.  A missing session document rejects
the update. -/
def sendChatMessage (s : DB) (chatId senderId text : String) : Except String DB :=
  if ¬ isValidId chatId then .error errInvalidId
  else if ¬ isValidId senderId then .error errInvalidId
  else
    match findDoc s.chatSessions chatId with
    | none => .error errChatNotFound
    | some chatSession =>
      let s1 := { s with chatSessions := updateDoc s.chatSessions chatId (fun c =>
          { c with
            messages := c.messages ++
              [{ senderId := senderId, text := text, isSystemMessage := false }]
            lastMessageText := some text
            isClosed := false
            closedByUserId := none }) }
      match chatSession.participantIds.find? (fun p => p != senderId),
            chatSession.participantIds.contains senderId with
      | some otherId, true =>
        if otherId ≠ "" then
          let notification : AppNotification :=
            { userId := otherId
              type := NotificationType.newMessage
              title := "Nuovo messaggio da " ++ participantDisplay s senderId
              message := "Riguardo: " ++ chatSession.adTitle
              relatedItemId := chatId
              isRead := false
              reservationDetails := none }
          .ok { s1 with
                notifications := s1.notifications ++ [(genId s1.nextId, notification)]
                nextId := s1.nextId + 1 }
        else .ok s1
      | _, _ => .ok s1

/-- `completeExchangeAndCloseChat(chatId, userIdCompleting)` —
transactional variant.  Only a participant may complete; in one atomic
commit the ad's `reservationStatus` is set to COMPLETED (its other
fields, `isReserved` included, are untouched), a system message is
appended, the chat is closed recording `closedByUserId`, and the other
participant is notified (EXCHANGE_COMPLETED).  No reservation document
is read or written, and there is no already-closed check. -/
def completeExchangeAndCloseChat (s : DB) (chatId userIdCompleting : String) :
    Except String DB :=
  if ¬ isValidId chatId then .error errInvalidId
  else if ¬ isValidId userIdCompleting then .error errInvalidId
  else
    match findDoc s.chatSessions chatId with
    | none => .error errChatNotFound
    | some chatData =>
      if ¬ chatData.participantIds.contains userIdCompleting then .error errUnauthorizedChat
      else
        match findDoc s.ads chatData.adId with
        | none => .error errRelatedAdNotFound
        | some _ =>
          let systemMessage := "Scambio completato. Questa chat e stata chiusa."
          let s1 := { s with
            ads := updateDoc s.ads chatData.adId (fun a =>
              { a with reservationStatus := some ReservationStatus.completed })
            chatSessions := updateDoc s.chatSessions chatId (fun c =>
              { c with
                messages := c.messages ++
                  [{ senderId := "system", text := systemMessage, isSystemMessage := true }]
                isClosed := true
                closedByUserId := some userIdCompleting
                lastMessageText := some systemMessage }) }
          match chatData.participantIds.find? (fun p => p != userIdCompleting),
                findDoc s.users userIdCompleting with
          | some otherId, some completer =>
            let notification : AppNotification :=
              { userId := otherId
                type := NotificationType.exchangeCompleted
                title := "Scambio per " ++ chatData.adTitle ++ " completato"
                message := getUserDisplayName completer ++
                  " ha segnato lo scambio come completato."
                relatedItemId := chatData.adId
                isRead := false
                reservationDetails := none }
            .ok { s1 with
                  notifications := s1.notifications ++ [(genId s1.nextId, notification)]
                  nextId := s1.nextId + 1 }
          | _, _ => .ok s1

end V1

namespace V2

/-- `createReservation(adId, requesterId)` — batch variant.  Reads the
ad and validates (street find / own ad / already reserved / duplicate
PENDING request by the same requester), then creates the PENDING
reservation document and the owner's RESERVATION_REQUEST notification.
The ad document itself is NOT updated: `isReserved` stays as it was. -/
def createReservation (s : DB) (adId requesterId : String) : Except String DB :=
  if ¬ isValidId adId then .error errInvalidId
  else if ¬ isValidId requesterId then .error errInvalidId
  else
    match findDoc s.ads adId with
    | none => .error errAdNotFound
    | some adData =>
      if adData.isStreetFind then .error errStreetFindNotReservable
      else if adData.userId == requesterId then .error errOwnAd
      else if adData.isReserved then .error errAlreadyReserved
      else if s.reservations.any (fun r =>
          r.snd.adId == adId && r.snd.requesterId == requesterId &&
          r.snd.status == ReservationStatus.pending) then
        .error errDuplicateRequest
      else
        match findDoc s.users requesterId with
        | none => .error errRequesterNotFound
        | some requester =>
          let reservationId := genId s.nextId
          let newReservation : Reservation :=
            { adId := adId
              adTitle := adData.title
              adMainImage := adData.images.headD ""
              requesterId := requesterId
              requesterName := getUserDisplayName requester
              ownerId := adData.userId
              status := ReservationStatus.pending
              chatSessionId := none }
          let ownerNotification : AppNotification :=
            { userId := adData.userId
              type := NotificationType.reservationRequest
              title := "Nuova richiesta per " ++ adData.title
              message := getUserDisplayName requester ++
                " ha richiesto il tuo oggetto: " ++ adData.title
              relatedItemId := reservationId
              isRead := false
              reservationDetails := some
                { adId := adId
                  adTitle := adData.title
                  requesterName := getUserDisplayName requester
                  reservationId := reservationId } }
          .ok { s with
                reservations := s.reservations ++ [(reservationId, newReservation)]
                notifications := s.notifications ++ [(genId (s.nextId + 1), ownerNotification)]
                nextId := s.nextId + 2 }

/-- One step of the ACCEPTED branch's auto-decline loop: mark the other
PENDING reservation DECLINED and append its requester's
RESERVATION_DECLINED notification. -/
def autoDeclineOne (adId adTitle : String) (s : DB) (entry : String × Reservation) : DB :=
  let notif : AppNotification :=
    { userId := entry.snd.requesterId
      type := NotificationType.reservationDeclined
      title := "Oggetto " ++ adTitle ++ " non piu disponibile"
      message := "L oggetto " ++ adTitle ++
        " che avevi richiesto e stato assegnato ad un altro utente."
      relatedItemId := adId
      isRead := false
      reservationDetails := none }
  { s with
    reservations := updateDoc s.reservations entry.fst
      (fun r => { r with status := ReservationStatus.declined })
    notifications := s.notifications ++ [(genId s.nextId, notif)]
    nextId := s.nextId + 1 }

/-- `updateReservationStatus(reservationId, newStatus, currentUserId,
originalNotificationId?)` — batch variant.  All reads happen before the
batch is committed; the commit is all-or-nothing.  On ACCEPTED the ad is
marked reserved for the requester, the chat session is reused or
created, and every OTHER reservation that was PENDING for the same ad is
marked DECLINED with its own notification inside the same batch.  On
DECLINED only the reservation and the requester's notification are
written — the ad document is not touched. -/
def updateReservationStatus (s : DB) (reservationId : String)
    (newStatus : ReservationStatus) (currentUserId : String)
    (originalNotificationId : Option String) : Except String DB :=
  if ¬ isValidId reservationId then .error errInvalidId
  else if ¬ isValidId currentUserId then .error errInvalidId
  else
    match findDoc s.reservations reservationId with
    | none => .error errReservationNotFound
    | some reservationData =>
      if reservationData.ownerId ≠ currentUserId then .error errUnauthorizedReservation
      else
        match markOriginalNotification s originalNotificationId with
        | .error e => .error e
        | .ok s1 =>
          if newStatus == ReservationStatus.accepted then
            let otherReservations := s.reservations.filter (fun r =>
              r.snd.adId == reservationData.adId &&
              r.snd.status == ReservationStatus.pending)
            let sortedParticipantIds :=
              sortIds [reservationData.ownerId, reservationData.requesterId]
            let existingChat := findChatByKey s sortedParticipantIds reservationData.adId
            match findDoc s.ads reservationData.adId with
            | none => .error errRelatedAdNotFound
            | some _ =>
              let s2 := { s1 with ads := updateDoc s1.ads reservationData.adId (fun a =>
                  { a with
                    isReserved := true
                    reservedByUserId := some reservationData.requesterId
                    reservationStatus := some ReservationStatus.accepted }) }
              let chatStep : DB × String :=
                match existingChat with
                | some (chatId, _) =>
                  ({ s2 with chatSessions := updateDoc s2.chatSessions chatId (fun c =>
                      { c with
                        isClosed := false
                        closedByUserId := none
                        reservationWasAccepted := true }) }, chatId)
                | none =>
                  let chatId := genId s2.nextId
                  let newChat : ChatSession :=
                    { participantIds := sortedParticipantIds
                      adId := reservationData.adId
                      adTitle := reservationData.adTitle
                      lastMessageText := none
                      isClosed := false
                      closedByUserId := none
                      reservationWasAccepted := true
                      reservationId := none
                      messages := [] }
                  ({ s2 with
                      chatSessions := s2.chatSessions ++ [(chatId, newChat)]
                      nextId := s2.nextId + 1 }, chatId)
              let s3 := chatStep.1
              let chatSessionId := chatStep.2
              let newReservations := updateDoc s3.reservations reservationId (fun r =>
                { r with status := ReservationStatus.accepted, chatSessionId := some chatSessionId })
              let s4 := { s3 with reservations := newReservations }
              let acceptedNotif : AppNotification :=
                { userId := reservationData.requesterId
                  type := NotificationType.reservationAccepted
                  title := "Prenotazione per " ++ reservationData.adTitle ++ " accettata"
                  message := "La tua richiesta per " ++ reservationData.adTitle ++
                    " e stata accettata. Puoi ora chattare con il proprietario."
                  relatedItemId := chatSessionId
                  isRead := false
                  reservationDetails := none }
              let s5 := { s4 with
                notifications := s4.notifications ++ [(genId s4.nextId, acceptedNotif)]
                nextId := s4.nextId + 1 }
              .ok ((otherReservations.filter (fun r => r.fst != reservationId)).foldl
                (autoDeclineOne reservationData.adId reservationData.adTitle) s5)
          else if newStatus == ReservationStatus.declined then
            let declinedNotif : AppNotification :=
              { userId := reservationData.requesterId
                type := NotificationType.reservationDeclined
                title := "Richiesta per " ++ reservationData.adTitle ++ " rifiutata"
                message := "La tua richiesta per " ++ reservationData.adTitle ++
                  " e stata rifiutata dal proprietario."
                relatedItemId := reservationData.adId
                isRead := false
                reservationDetails := none }
            let newReservations := updateDoc s1.reservations reservationId (fun r =>
              { r with status := ReservationStatus.declined })
            .ok { s1 with
                  reservations := newReservations
                  notifications := s1.notifications ++ [(genId s1.nextId, declinedNotif)]
                  nextId := s1.nextId + 1 }
          else .ok s1

/-- One step of the completion notification loop: append the
EXCHANGE_COMPLETED notification for one participant. -/
def exchangeCompletedNotifyOne (adId adTitle : String) (s : DB) (pid : String) : DB :=
  { s with
    notifications := s.notifications ++ [(genId s.nextId,
      { userId := pid
        type := NotificationType.exchangeCompleted
        title := "Scambio per " ++ adTitle ++ " completato"
        message := "Lo scambio per l oggetto " ++ adTitle ++
          " e stato segnato come completato."
        relatedItemId := adId
        isRead := false
        reservationDetails := none })]
    nextId := s.nextId + 1 }

/-- `completeExchangeAndCloseChat(chatId, userIdCompleting)` — batch
variant.  Only a participant may complete; in one atomic transaction the
ad is set to COMPLETED, the ad's first ACCEPTED reservation (when one
exists) is set to COMPLETED, a system message is appended, the chat is
closed, and an EXCHANGE_COMPLETED notification is written for EVERY
participant (the completer included).  There is no already-closed
check. -/
def completeExchangeAndCloseChat (s : DB) (chatId userIdCompleting : String) :
    Except String DB :=
  if ¬ isValidId chatId then .error errInvalidId
  else if ¬ isValidId userIdCompleting then .error errInvalidId
  else
    match findDoc s.chatSessions chatId with
    | none => .error errChatNotFound
    | some sessionData =>
      if ¬ sessionData.participantIds.contains userIdCompleting then .error errUnauthorizedChat
      else
        match findDoc s.ads sessionData.adId with
        | none => .error errRelatedAdNotFound
        | some _ =>
          let acceptedRes := s.reservations.find? (fun r =>
            r.snd.adId == sessionData.adId &&
            r.snd.status == ReservationStatus.accepted)
          let s1 := { s with ads := updateDoc s.ads sessionData.adId (fun a =>
              { a with reservationStatus := some ReservationStatus.completed }) }
          let s2 :=
            match acceptedRes with
            | some (rid, _) =>
              { s1 with reservations := updateDoc s1.reservations rid (fun r =>
                  { r with status := ReservationStatus.completed }) }
            | none => s1
          let lastMessage := "Scambio completato"
          let s3 := { s2 with chatSessions := updateDoc s2.chatSessions chatId (fun c =>
              { c with
                isClosed := true
                closedByUserId := some userIdCompleting
                lastMessageText := some lastMessage
                messages := c.messages ++
                  [{ senderId := "system", text := lastMessage, isSystemMessage := true }] }) }
          .ok (sessionData.participantIds.foldl
            (exchangeCompletedNotifyOne sessionData.adId sessionData.adTitle) s3)

end V2


/-!
## Helper lemmas about the document-store primitives
-/

theorem findDoc_nil {α : Type} (id : String) : findDoc ([] : List (String × α)) id = none := rfl

theorem findDoc_cons {α : Type} (k : String) (v : α) (t : List (String × α)) (id : String) :
    findDoc ((k, v) :: t) id = if k = id then some v else findDoc t id := by
  by_cases h : k = id <;> simp [findDoc, List.find?_cons, h]

theorem updateDoc_nil {α : Type} (id : String) (f : α → α) :
    updateDoc ([] : List (String × α)) id f = [] := rfl

theorem updateDoc_cons {α : Type} (k : String) (v : α) (t : List (String × α)) (id : String) (f : α → α) :
    updateDoc ((k, v) :: t) id f = (if k = id then (k, f v) else (k, v)) :: updateDoc t id f := by
  by_cases h : k = id <;> simp [updateDoc, h]

theorem findDoc_updateDoc_self {α : Type} (docs : List (String × α)) (id : String) (f : α → α) :
    findDoc (updateDoc docs id f) id = (findDoc docs id).map f := by
  induction docs with
  | nil => rfl
  | cons d t ih =>
    obtain ⟨k, v⟩ := d
    rw [updateDoc_cons]
    by_cases h : k = id
    · rw [if_pos h, findDoc_cons, findDoc_cons, if_pos h, if_pos h]
      rfl
    · rw [if_neg h, findDoc_cons, findDoc_cons, if_neg h, if_neg h, ih]

theorem findDoc_updateDoc_ne {α : Type} (docs : List (String × α)) (id id' : String) (f : α → α)
    (h : id' ≠ id) :
    findDoc (updateDoc docs id f) id' = findDoc docs id' := by
  induction docs with
  | nil => rfl
  | cons d t ih =>
    obtain ⟨k, v⟩ := d
    rw [updateDoc_cons]
    by_cases hk : k = id
    · have hk' : k ≠ id' := by
        subst hk
        exact fun hh => h hh.symm
      rw [if_pos hk, findDoc_cons, findDoc_cons, if_neg hk', if_neg hk', ih]
    · rw [if_neg hk, findDoc_cons, findDoc_cons, ih]

theorem findDoc_append {α : Type} (l1 l2 : List (String × α)) (id : String) :
    findDoc (l1 ++ l2) id = match findDoc l1 id with
      | some v => some v
      | none => findDoc l2 id := by
  induction l1 with
  | nil => simp [findDoc_nil]
  | cons d t ih =>
    obtain ⟨k, v⟩ := d
    rw [List.cons_append, findDoc_cons, findDoc_cons]
    by_cases h : k = id
    · simp [h]
    · simp only [if_neg h, ih]

theorem findDoc_append_left {α : Type} (l1 l2 : List (String × α)) (id : String) (v : α)
    (h : findDoc l1 id = some v) :
    findDoc (l1 ++ l2) id = some v := by
  rw [findDoc_append, h]

theorem findDoc_append_right {α : Type} (l1 l2 : List (String × α)) (id : String)
    (h : findDoc l1 id = none) :
    findDoc (l1 ++ l2) id = findDoc l2 id := by
  rw [findDoc_append, h]

/-- `charListLe` is total. -/
theorem charListLe_total : ∀ l1 l2, charListLe l1 l2 = true ∨ charListLe l2 l1 = true := by
  intro l1
  induction l1 with
  | nil => intro l2; left; rfl
  | cons c1 t1 ih =>
    intro l2
    cases l2 with
    | nil => right; rfl
    | cons c2 t2 =>
      by_cases h12 : c1.toNat < c2.toNat
      · left; simp [charListLe, h12]
      · by_cases h21 : c2.toNat < c1.toNat
        · right; simp [charListLe, h21]
        · rcases ih t2 with h | h
          · left; simp [charListLe, h12, h21, h]
          · right; simp [charListLe, h12, h21, h]

/-- `charListLe` is antisymmetric. -/
theorem charListLe_antisymm : ∀ l1 l2, charListLe l1 l2 = true → charListLe l2 l1 = true →
    l1 = l2 := by
  intro l1
  induction l1 with
  | nil =>
    intro l2 h12 h21
    cases l2 with
    | nil => rfl
    | cons c t => exact absurd h21 (by simp [charListLe])
  | cons c1 t1 ih =>
    intro l2 h12 h21
    cases l2 with
    | nil => exact absurd h12 (by simp [charListLe])
    | cons c2 t2 =>
      by_cases hlt : c1.toNat < c2.toNat
      · simp [charListLe, hlt, Nat.lt_asymm hlt] at h21
      · by_cases hgt : c2.toNat < c1.toNat
        · simp [charListLe, hlt, hgt] at h12
        · have hceq : c1 = c2 := by
            have : c1.toNat = c2.toNat :=
              Nat.le_antisymm (Nat.le_of_not_lt hgt) (Nat.le_of_not_lt hlt)
            exact Char.ext (UInt32.toNat.inj this)
          subst hceq
          simp [charListLe, hlt] at h12 h21
          rw [ih t2 h12 h21]

/-- The canonical sort of a two-participant list does not depend on the
order the participants were passed in. -/
theorem sortIds_pair_comm (a b : String) : sortIds [a, b] = sortIds [b, a] := by
  unfold sortIds sortIds sortIds insertSorted insertSorted
  by_cases hab : strLe a b = true
  · by_cases hba : strLe b a = true
    · have : a = b := by
        have := charListLe_antisymm a.data b.data hab hba
        exact String.ext this
      subst this
      rfl
    · simp [hab, hba]
  · by_cases hba : strLe b a = true
    · simp [hab, hba]
    · rcases charListLe_total a.data b.data with h | h
      · exact absurd h hab
      · exact absurd h hba

/-- Uniqueness of document ids in one collection — the store invariant
Firestore's generated document ids provide. -/
def keysNodup {α : Type} (docs : List (String × α)) : Prop :=
  (docs.map Prod.fst).Nodup

instance {α : Type} (docs : List (String × α)) : Decidable (keysNodup docs) := by
  unfold keysNodup
  infer_instance

/-- With unique keys, list membership determines `findDoc`. -/
theorem findDoc_eq_of_mem_nodup {α : Type} (docs : List (String × α)) (k : String) (v : α)
    (hmem : (k, v) ∈ docs) (hnd : keysNodup docs) : findDoc docs k = some v := by
  induction docs with
  | nil => cases hmem
  | cons d t ih =>
    obtain ⟨k', v'⟩ := d
    unfold keysNodup at hnd
    rw [List.map_cons, List.nodup_cons] at hnd
    rcases List.mem_cons.mp hmem with heq | hmem'
    · obtain ⟨rfl, rfl⟩ := Prod.mk.inj heq
      rw [findDoc_cons, if_pos rfl]
    · have hk : k ∈ t.map Prod.fst := List.mem_map_of_mem Prod.fst hmem'
      have hne : k' ≠ k := fun e => hnd.1 (e ▸ hk)
      rw [findDoc_cons, if_neg hne]
      exact ih hmem' hnd.2

/-- A successful `findDoc` lookup comes from a stored entry. -/
theorem mem_of_findDoc {α : Type} (docs : List (String × α)) (k : String) (v : α)
    (h : findDoc docs k = some v) : (k, v) ∈ docs := by
  unfold findDoc at h
  cases hf : docs.find? (fun d => d.fst == k) with
  | none => rw [hf] at h; cases h
  | some e =>
    rw [hf] at h
    injection h with h
    have hm := List.mem_of_find?_eq_some hf
    have hp := List.find?_some hf
    simp only [beq_iff_eq] at hp
    obtain ⟨k', v'⟩ := e
    dsimp only at hp h
    subst hp
    subst h
    exact hm

/-- What a successful chat-key query returns: a stored session whose
participants and ad match the key. -/
theorem findChatByKey_some (s : DB) (ids : List String) (adId cid : String) (c : ChatSession)
    (h : findChatByKey s ids adId = some (cid, c)) :
    (cid, c) ∈ s.chatSessions ∧ c.participantIds = ids ∧ c.adId = adId := by
  unfold findChatByKey at h
  refine ⟨List.mem_of_find?_eq_some h, ?_⟩
  have hp := List.find?_some h
  simp only [Bool.and_eq_true, beq_iff_eq] at hp
  exact hp

/-!
## Derived observations used by the claims
-/

/-- The spec invariant on one ad document:
`isReserved == true` iff `reservationStatus ∈ (PENDING, ACCEPTED, COMPLETED)`. -/
def adInvariantB (a : FirestoreAdData) : Bool :=
  a.isReserved == (a.reservationStatus == some ReservationStatus.pending ||
    a.reservationStatus == some ReservationStatus.accepted ||
    a.reservationStatus == some ReservationStatus.completed)

/-- The (recipient, type) trace of the notification collection, in
creation order. -/
def notifSummary (s : DB) : List (String × NotificationType) :=
  s.notifications.map (fun n => (n.snd.userId, n.snd.type))

/-- Number of stored notifications of a given type. -/
def notifTypeCount (s : DB) (t : NotificationType) : Nat :=
  (s.notifications.filter (fun n => n.snd.type == t)).length

/-- View of one ad's reservation fields in the state an operation chain
produced (`none` when the chain failed or the ad is absent). -/
def runAdView (r : Except String DB) (adId : String) :
    Option (Bool × Option ReservationStatus) :=
  match r with
  | .error _ => none
  | .ok s => (findDoc s.ads adId).map (fun a => (a.isReserved, a.reservationStatus))

/-- `adInvariantB` evaluated on one ad of a chain's final state. -/
def runAdInv (r : Except String DB) (adId : String) : Option Bool :=
  match r with
  | .error _ => none
  | .ok s => (findDoc s.ads adId).map adInvariantB

/-- The committed state of a successful operation (fallback otherwise). -/
def okState (r : Except String DB) (fallback : DB) : DB :=
  match r with
  | .ok s => s
  | .error _ => fallback

/-- Mapping a per-document view over `updateDoc` is the identity when
the update does not change the view. -/
theorem map_updateDoc {α β : Type} (docs : List (String × α)) (id : String) (f : α → α)
    (g : String × α → β) (hf : ∀ k v, g (k, f v) = g (k, v)) :
    (updateDoc docs id f).map g = docs.map g := by
  induction docs with
  | nil => rfl
  | cons d t ih =>
    obtain ⟨k, v⟩ := d
    rw [updateDoc_cons]
    by_cases h : k = id
    · rw [if_pos h, List.map_cons, List.map_cons, hf, ih]
    · rw [if_neg h, List.map_cons, List.map_cons, ih]

/-- The completion-notification loop touches only the notification
collection, appending one EXCHANGE_COMPLETED record per participant. -/
theorem foldl_exchangeNotify (adId adTitle : String) :
    ∀ (l : List String) (s : DB),
      (l.foldl (V2.exchangeCompletedNotifyOne adId adTitle) s).users = s.users ∧
      (l.foldl (V2.exchangeCompletedNotifyOne adId adTitle) s).ads = s.ads ∧
      (l.foldl (V2.exchangeCompletedNotifyOne adId adTitle) s).reservations = s.reservations ∧
      (l.foldl (V2.exchangeCompletedNotifyOne adId adTitle) s).chatSessions = s.chatSessions ∧
      notifSummary (l.foldl (V2.exchangeCompletedNotifyOne adId adTitle) s) =
        notifSummary s ++ l.map (fun pid => (pid, NotificationType.exchangeCompleted)) := by
  intro l
  induction l with
  | nil =>
    intro s
    exact ⟨rfl, rfl, rfl, rfl, by simp⟩
  | cons p t ih =>
    intro s
    obtain ⟨hu, ha, hr, hc, hn⟩ := ih (V2.exchangeCompletedNotifyOne adId adTitle s p)
    rw [List.foldl_cons]
    refine ⟨hu, ha, hr, hc, ?_⟩
    rw [hn]
    unfold V2.exchangeCompletedNotifyOne notifSummary
    dsimp only
    simp [List.map_append]

/-- Marking a reservation DECLINED twice is the same as once. -/
theorem option_map_decline_idem (o : Option Reservation) :
    (o.map (fun r => { r with status := ReservationStatus.declined })).map
      (fun r => { r with status := ReservationStatus.declined }) =
      o.map (fun r => { r with status := ReservationStatus.declined }) := by
  cases o <;> rfl

/-- The auto-decline loop leaves users, ads and chats alone and appends
one RESERVATION_DECLINED notification per processed reservation. -/
theorem foldl_autoDecline_components (adId adTitle : String) :
    ∀ (l : List (String × Reservation)) (s : DB),
      (l.foldl (V2.autoDeclineOne adId adTitle) s).users = s.users ∧
      (l.foldl (V2.autoDeclineOne adId adTitle) s).ads = s.ads ∧
      (l.foldl (V2.autoDeclineOne adId adTitle) s).chatSessions = s.chatSessions ∧
      notifSummary (l.foldl (V2.autoDeclineOne adId adTitle) s) =
        notifSummary s ++
          l.map (fun e => (e.snd.requesterId, NotificationType.reservationDeclined)) := by
  intro l
  induction l with
  | nil =>
    intro s
    exact ⟨rfl, rfl, rfl, by simp⟩
  | cons e t ih =>
    intro s
    obtain ⟨hu, ha, hc, hn⟩ := ih (V2.autoDeclineOne adId adTitle s e)
    rw [List.foldl_cons]
    refine ⟨hu, ha, hc, ?_⟩
    rw [hn]
    unfold V2.autoDeclineOne notifSummary
    dsimp only
    simp [List.map_append, map_updateDoc _ _ _ _ (fun k v => rfl)]

/-- Reservations not processed by the auto-decline loop are unchanged. -/
theorem foldl_autoDecline_find_not_mem (adId adTitle : String) :
    ∀ (l : List (String × Reservation)) (s : DB) (rid2 : String),
      rid2 ∉ l.map Prod.fst →
      findDoc (l.foldl (V2.autoDeclineOne adId adTitle) s).reservations rid2 =
        findDoc s.reservations rid2 := by
  intro l
  induction l with
  | nil => intro s rid2 _; rfl
  | cons e t ih =>
    intro s rid2 hmem
    rw [List.map_cons] at hmem
    rw [List.foldl_cons, ih _ _ (fun hx => hmem (List.mem_cons_of_mem _ hx))]
    unfold V2.autoDeclineOne
    dsimp only
    exact findDoc_updateDoc_ne _ _ _ _ (fun e2 => hmem (e2 ▸ List.mem_cons_self _ _))

/-- Every reservation processed by the auto-decline loop ends DECLINED. -/
theorem foldl_autoDecline_find_mem (adId adTitle : String) :
    ∀ (l : List (String × Reservation)) (s : DB) (rid2 : String),
      rid2 ∈ l.map Prod.fst →
      findDoc (l.foldl (V2.autoDeclineOne adId adTitle) s).reservations rid2 =
        (findDoc s.reservations rid2).map
          (fun r => { r with status := ReservationStatus.declined }) := by
  intro l
  induction l with
  | nil =>
    intro s rid2 hmem
    cases hmem
  | cons e t ih =>
    intro s rid2 hmem
    rw [List.foldl_cons]
    by_cases ht : rid2 ∈ t.map Prod.fst
    · rw [ih _ _ ht]
      unfold V2.autoDeclineOne
      dsimp only
      by_cases hk : rid2 = e.fst
      · subst hk
        rw [findDoc_updateDoc_self, option_map_decline_idem]
      · rw [findDoc_updateDoc_ne _ _ _ _ hk]
    · have hk : rid2 = e.fst := by
        rw [List.map_cons] at hmem
        rcases List.mem_cons.mp hmem with h | h
        · exact h
        · exact absurd h ht
      subst hk
      rw [foldl_autoDecline_find_not_mem adId adTitle t _ _ ht]
      unfold V2.autoDeclineOne
      dsimp only
      rw [findDoc_updateDoc_self]

/-- `markOriginalNotification` only ever touches the notification
collection, and only the `isRead` flag there: the (recipient, type)
summary is untouched. -/
theorem markOriginalNotification_ok (s : DB) (onid : Option String) (s2 : DB)
    (h : markOriginalNotification s onid = Except.ok s2) :
    s2.users = s.users ∧ s2.ads = s.ads ∧ s2.reservations = s.reservations ∧
    s2.chatSessions = s.chatSessions ∧ s2.nextId = s.nextId ∧
    notifSummary s2 = notifSummary s := by
  unfold markOriginalNotification at h
  split at h
  · injection h with h
    subst h
    exact ⟨rfl, rfl, rfl, rfl, rfl, rfl⟩
  · split at h
    · split at h
      · exact absurd h (by simp)
      · injection h with h
        subst h
        refine ⟨rfl, rfl, rfl, rfl, rfl, ?_⟩
        unfold notifSummary
        dsimp only
        exact map_updateDoc _ _ _ _ (fun k v => rfl)
    · injection h with h
      subst h
      exact ⟨rfl, rfl, rfl, rfl, rfl, rfl⟩

/-!
## Concrete fixtures

A three-user store with one ordinary ad (`adX`, owned by `owner1`) and,
in a second base state, one street-find ad (`adY`).
-/

def annaRec : User := { firstName := "Anna", lastName := "Bianchi", nickname := none }

def brunoRec : User := { firstName := "Bruno", lastName := "Conti", nickname := none }

def carlaRec : User := { firstName := "Carla", lastName := "Dini", nickname := none }

def baseUsers : List (String × User) :=
  [("owner1", annaRec), ("req1", brunoRec), ("req2", carlaRec)]

def adOpen : FirestoreAdData :=
  { userId := "owner1"
    title := "Lampada"
    description := "Lampada da tavolo"
    category := "Arredo"
    images := []
    locationName := "Milano"
    isReserved := false
    reservedByUserId := none
    reservationStatus := none
    waitingListUserIds := []
    tags := []
    isStreetFind := false }

def dbOpen : DB :=
  { users := baseUsers
    ads := [("adX", adOpen)]
    reservations := []
    chatSessions := []
    notifications := []
    nextId := 0 }

def adStreet : FirestoreAdData :=
  { adOpen with title := "Sedia", isStreetFind := true }

def dbStreet : DB := { dbOpen with ads := [("adY", adStreet)] }

/-- `dbOpen` after `createReservation(adX, req1)`: reservation `doc_0`
is PENDING and the ad is reserved. -/
def dbPending : DB := okState (V1.createReservation dbOpen "adX" "req1") dbOpen

/-- `dbPending` after the owner accepts `doc_0`: chat `doc_2` is open. -/
def dbAccepted : DB :=
  okState (V1.updateReservationStatus dbPending "doc_0" ReservationStatus.accepted "owner1" none) dbOpen

/-- `dbPending` after `joinWaitingList(adX, req2)`. -/
def dbJoined : DB := okState (V1.joinWaitingList dbPending "adX" "req2") dbOpen

/-- `dbAccepted` after `completeExchangeAndCloseChat(doc_2, owner1)`. -/
def dbCompleted : DB :=
  okState (V1.completeExchangeAndCloseChat dbAccepted "doc_2" "owner1") dbOpen

/-- `dbStreet` after `claimStreetFind(adY, req1, owner1, Sedia)`. -/
def dbClaimed : DB :=
  okState (V1.claimStreetFind dbStreet "adY" "req1" "owner1" "Sedia") dbOpen

/-- The ad document of `dbPending`. -/
def adPendingRec : FirestoreAdData :=
  { adOpen with
    isReserved := true
    reservedByUserId := some "req1"
    reservationStatus := some ReservationStatus.pending }

/-- The ad document of `dbAccepted`. -/
def adAcceptedRec : FirestoreAdData :=
  { adOpen with
    isReserved := true
    reservedByUserId := some "req1"
    reservationStatus := some ReservationStatus.accepted }

/-- The ad document of `dbClaimed`. -/
def adClaimedRec : FirestoreAdData :=
  { adStreet with
    isReserved := true
    reservedByUserId := some "req1"
    reservationStatus := some ReservationStatus.completed }

/-- The reservation document `doc_0` of `dbPending`. -/
def resPendingRec : Reservation :=
  { adId := "adX"
    adTitle := "Lampada"
    adMainImage := ""
    requesterId := "req1"
    requesterName := "Bruno C."
    ownerId := "owner1"
    status := ReservationStatus.pending
    chatSessionId := none }

/-- The chat document `doc_2` of `dbAccepted`. -/
def chatAcceptedRec : ChatSession :=
  { participantIds := ["owner1", "req1"]
    adId := "adX"
    adTitle := "Lampada"
    lastMessageText := none
    isClosed := false
    closedByUserId := none
    reservationWasAccepted := true
    reservationId := some "doc_0"
    messages := [] }

/-- Reachable trace that breaks the C1 invariant: reserve, accept
(opening chat `doc_2`), decline the now-ACCEPTED reservation (the ad
returns to Open, the chat stays), then complete the exchange through the
still-open chat. -/
def c1badRun : Except String DB :=
  (V1.createReservation dbOpen "adX" "req1").bind (fun t =>
    (V1.updateReservationStatus t "doc_0" ReservationStatus.accepted "owner1" none).bind (fun u =>
      (V1.updateReservationStatus u "doc_0" ReservationStatus.declined "owner1" none).bind (fun v =>
        V1.completeExchangeAndCloseChat v "doc_2" "owner1")))

/-!
## C1 — `isReserved == true` iff `reservationStatus ∈ (PENDING, ACCEPTED, COMPLETED)`
-/

/-- C1 (counterexample): the claim as stated is false.  Through the
listed core operations alone — createReservation, then
updateReservationStatus(ACCEPTED), then updateReservationStatus(DECLINED)
on the now-accepted reservation (the ad returns to Open while the chat
stays open), then completeExchangeAndCloseChat — the ad ends with
`isReserved = false` and `reservationStatus = COMPLETED`, because
`completeExchangeAndCloseChat` writes `reservationStatus` without
touching `isReserved`.  So after a mutating core operation the iff does
not hold. -/
theorem C1_counterexample :
    runAdView c1badRun "adX" = some (false, some ReservationStatus.completed) ∧
    runAdInv c1badRun "adX" = some false := by
  exact ⟨by rfl, by rfl⟩

/-- C1 (amended): after createReservation, after
updateReservationStatus with newStatus ACCEPTED or DECLINED, and after
claimStreetFind, the touched ad satisfies the iff unconditionally;
joinWaitingList only appends to the waiting list, leaving `isReserved`
and `reservationStatus` unchanged; completeExchangeAndCloseChat sets
`reservationStatus := COMPLETED` while leaving `isReserved` (and every
other ad field) unchanged, so it preserves the iff only when the ad was
reserved when the exchange was completed. -/
theorem C1_isReserved_iff_activeStatus :
    (∀ s adId rid s', V1.createReservation s adId rid = Except.ok s' →
      ∀ a, findDoc s'.ads adId = some a → adInvariantB a = true) ∧
    (∀ s rid ns uid onid s' r, findDoc s.reservations rid = some r →
      (ns = ReservationStatus.accepted ∨ ns = ReservationStatus.declined) →
      V1.updateReservationStatus s rid ns uid onid = Except.ok s' →
      ∀ a, findDoc s'.ads r.adId = some a → adInvariantB a = true) ∧
    (∀ s adId uid s' a, V1.joinWaitingList s adId uid = Except.ok s' →
      findDoc s.ads adId = some a →
      findDoc s'.ads adId =
        some { a with waitingListUserIds := a.waitingListUserIds ++ [uid] }) ∧
    (∀ s adId picker owner title s',
      V1.claimStreetFind s adId picker owner title = Except.ok s' →
      ∀ a, findDoc s'.ads adId = some a → adInvariantB a = true) ∧
    (∀ s chatId uid s' c a, V1.completeExchangeAndCloseChat s chatId uid = Except.ok s' →
      findDoc s.chatSessions chatId = some c → findDoc s.ads c.adId = some a →
      findDoc s'.ads c.adId =
        some { a with reservationStatus := some ReservationStatus.completed }) := by
  refine ⟨?_, ?_, ?_, ?_, ?_⟩
  · intro s adId rid s' h
    unfold V1.createReservation at h
    split at h
    · exact absurd h (by simp)
    split at h
    · exact absurd h (by simp)
    split at h
    · exact absurd h (by simp)
    split at h
    · exact absurd h (by simp)
    split at h
    · exact absurd h (by simp)
    split at h
    · exact absurd h (by simp)
    split at h
    · exact absurd h (by simp)
    rename_i adData hAd xu requester hUser hsf hown hres
    injection h with h
    subst h
    intro a ha
    rw [findDoc_updateDoc_self, hAd] at ha
    simp only [Option.map_some'] at ha
    injection ha with ha
    subst ha
    simp [adInvariantB]
  · intro s rid ns uid onid s' r hr hns h
    unfold V1.updateReservationStatus at h
    split at h
    · exact absurd h (by simp)
    split at h
    · exact absurd h (by simp)
    rw [hr] at h
    rcases hns with hns | hns
    · subst hns
      simp only [show (ReservationStatus.accepted == ReservationStatus.accepted) = true from rfl,
        if_true] at h
      split at h
      · exact absurd h (by simp)
      rename_i adData hAdFound
      split at h
      · exact absurd h (by simp)
      split at h
      · exact absurd h (by simp)
      rename_i s2 hs2
      obtain ⟨-, hs2ads, -, -, -⟩ := markOriginalNotification_ok _ _ _ hs2
      split at h
      · injection h with h
        subst h
        intro a ha
        simp only [findDoc_updateDoc_self, hs2ads, hAdFound, Option.map_some'] at ha
        injection ha with ha
        subst ha
        simp [adInvariantB]
      · injection h with h
        subst h
        intro a ha
        simp only [findDoc_updateDoc_self, hs2ads, hAdFound, Option.map_some'] at ha
        injection ha with ha
        subst ha
        simp [adInvariantB]
    · subst hns
      simp only [show (ReservationStatus.declined == ReservationStatus.accepted) = false from rfl,
        show (ReservationStatus.declined == ReservationStatus.declined) = true from rfl,
        Bool.false_eq_true, if_false, if_true] at h
      split at h
      · exact absurd h (by simp)
      rename_i adData hAdFound
      split at h
      · exact absurd h (by simp)
      split at h
      · exact absurd h (by simp)
      rename_i s2 hs2
      obtain ⟨-, hs2ads, -, -, -⟩ := markOriginalNotification_ok _ _ _ hs2
      split at h
      · rename_i nextUserId remaining nextReq hwl hnext
        unfold V1.declinedRequesterNotify at h
        injection h with h
        subst h
        intro a ha
        simp only [findDoc_updateDoc_self, hs2ads, hAdFound, Option.map_some'] at ha
        injection ha with ha
        subst ha
        simp [adInvariantB]
      · rename_i hcatch
        unfold V1.declinedRequesterNotify at h
        injection h with h
        subst h
        intro a ha
        simp only [findDoc_updateDoc_self, hs2ads, hAdFound, Option.map_some'] at ha
        injection ha with ha
        subst ha
        simp [adInvariantB]
  · intro s adId uid s' a h ha
    unfold V1.joinWaitingList at h
    split at h
    · exact absurd h (by simp)
    split at h
    · exact absurd h (by simp)
    split at h
    · exact absurd h (by simp)
    rename_i adData hAdFound
    split at h
    · exact absurd h (by simp)
    split at h
    · exact absurd h (by simp)
    split at h
    · exact absurd h (by simp)
    split at h
    · exact absurd h (by simp)
    split at h
    · exact absurd h (by simp)
    split at h
    · exact absurd h (by simp)
    split at h
    · exact absurd h (by simp)
    obtain rfl : adData = a := Option.some.inj (hAdFound.symm.trans ha)
    injection h with h
    subst h
    simp only [findDoc_updateDoc_self, ha, Option.map_some']
  · intro s adId picker owner title s' h
    unfold V1.claimStreetFind at h
    split at h
    · exact absurd h (by simp)
    split at h
    · exact absurd h (by simp)
    split at h
    · exact absurd h (by simp)
    split at h
    · exact absurd h (by simp)
    rename_i adData hAdFound
    split at h
    · exact absurd h (by simp)
    split at h
    · exact absurd h (by simp)
    split at h
    · exact absurd h (by simp)
    injection h with h
    subst h
    intro a ha
    simp only [findDoc_updateDoc_self, hAdFound, Option.map_some'] at ha
    injection ha with ha
    subst ha
    simp [adInvariantB]
  · intro s chatId uid s' c a h hc ha
    unfold V1.completeExchangeAndCloseChat at h
    split at h
    · exact absurd h (by simp)
    split at h
    · exact absurd h (by simp)
    split at h
    · exact absurd h (by simp)
    rename_i chatData hChatFound
    obtain rfl : chatData = c := Option.some.inj (hChatFound.symm.trans hc)
    split at h
    · exact absurd h (by simp)
    split at h
    · exact absurd h (by simp)
    split at h
    · injection h with h
      subst h
      simp only [findDoc_updateDoc_self, ha, Option.map_some']
    · injection h with h
      subst h
      simp only [findDoc_updateDoc_self, ha, Option.map_some']

/-- C1 (witness): the amended theorem applied on the concrete store:
reserve then read back the pending ad, accept, join the waiting list,
claim the street find, and complete the accepted exchange. -/
theorem C1_isReserved_iff_activeStatus_witness :
    adInvariantB adPendingRec = true ∧
    adInvariantB adAcceptedRec = true ∧
    findDoc dbJoined.ads "adX" =
      some { adPendingRec with
             waitingListUserIds := adPendingRec.waitingListUserIds ++ ["req2"] } ∧
    adInvariantB adClaimedRec = true ∧
    findDoc dbCompleted.ads "adX" =
      some { adAcceptedRec with reservationStatus := some ReservationStatus.completed } :=
  ⟨C1_isReserved_iff_activeStatus.1 dbOpen "adX" "req1" dbPending (by rfl)
      adPendingRec (by rfl),
   C1_isReserved_iff_activeStatus.2.1 dbPending "doc_0" ReservationStatus.accepted
      "owner1" none dbAccepted resPendingRec (by rfl) (Or.inl rfl) (by rfl)
      adAcceptedRec (by rfl),
   C1_isReserved_iff_activeStatus.2.2.1 dbPending "adX" "req2" dbJoined
      adPendingRec (by rfl) (by rfl),
   C1_isReserved_iff_activeStatus.2.2.2.1 dbStreet "adY" "req1" "owner1" "Sedia"
      dbClaimed (by rfl) adClaimedRec (by rfl),
   C1_isReserved_iff_activeStatus.2.2.2.2 dbAccepted "doc_2" "owner1" dbCompleted
      chatAcceptedRec adAcceptedRec (by rfl) (by rfl) (by rfl)⟩

/-!
## C3 — `createReservation` precondition failures have no effect

In both variants every precondition is checked before any write, so a
violated precondition surfaces as the corresponding domain error and, by
the all-or-nothing commit semantics (`Except.error` carries no state),
the ads, reservations and notifications collections are left entirely
unchanged.
-/

/-- C3: `createReservation(adId, requesterId)` fails with the specific
domain error and performs no writes whenever the ad does not exist, the
ad is a street find, the requester is the owner, or the ad is already
reserved — in the transactional variant (first five conjuncts, where
the requester document is read before the business checks) and in the
batch variant (last four conjuncts, which check before looking the
requester up).  An `Except.error` result is an aborted commit: the prior
state is untouched. -/
theorem C3_createReservation_preconditions :
    (∀ s adId rid, isValidId adId = true → isValidId rid = true →
      findDoc s.ads adId = none →
      V1.createReservation s adId rid = Except.error errAdNotFound) ∧
    (∀ s adId rid (a : FirestoreAdData), isValidId adId = true → isValidId rid = true →
      findDoc s.ads adId = some a → findDoc s.users rid = none →
      V1.createReservation s adId rid = Except.error errRequesterNotFound) ∧
    (∀ s adId rid a u, isValidId adId = true → isValidId rid = true →
      findDoc s.ads adId = some a → findDoc s.users rid = some u →
      a.isStreetFind = true →
      V1.createReservation s adId rid = Except.error errStreetFindNotReservable) ∧
    (∀ s adId rid a u, isValidId adId = true → isValidId rid = true →
      findDoc s.ads adId = some a → findDoc s.users rid = some u →
      a.isStreetFind = false → a.userId = rid →
      V1.createReservation s adId rid = Except.error errOwnAd) ∧
    (∀ s adId rid a u, isValidId adId = true → isValidId rid = true →
      findDoc s.ads adId = some a → findDoc s.users rid = some u →
      a.isStreetFind = false → a.userId ≠ rid → a.isReserved = true →
      V1.createReservation s adId rid = Except.error errAlreadyReserved) ∧
    (∀ s adId rid, isValidId adId = true → isValidId rid = true →
      findDoc s.ads adId = none →
      V2.createReservation s adId rid = Except.error errAdNotFound) ∧
    (∀ s adId rid a, isValidId adId = true → isValidId rid = true →
      findDoc s.ads adId = some a → a.isStreetFind = true →
      V2.createReservation s adId rid = Except.error errStreetFindNotReservable) ∧
    (∀ s adId rid a, isValidId adId = true → isValidId rid = true →
      findDoc s.ads adId = some a → a.isStreetFind = false → a.userId = rid →
      V2.createReservation s adId rid = Except.error errOwnAd) ∧
    (∀ s adId rid a, isValidId adId = true → isValidId rid = true →
      findDoc s.ads adId = some a → a.isStreetFind = false → a.userId ≠ rid →
      a.isReserved = true →
      V2.createReservation s adId rid = Except.error errAlreadyReserved) := by
  refine ⟨?_, ?_, ?_, ?_, ?_, ?_, ?_, ?_, ?_⟩
  · intro s adId rid h1 h2 hnone
    unfold V1.createReservation
    simp [h1, h2, hnone]
  · intro s adId rid a h1 h2 ha hu
    unfold V1.createReservation
    simp [h1, h2, ha, hu]
  · intro s adId rid a u h1 h2 ha hu hsf
    unfold V1.createReservation
    simp [h1, h2, ha, hu, hsf]
  · intro s adId rid a u h1 h2 ha hu hsf hown
    unfold V1.createReservation
    simp [h1, h2, ha, hu, hsf, hown]
  · intro s adId rid a u h1 h2 ha hu hsf hown hres
    unfold V1.createReservation
    simp [h1, h2, ha, hu, hsf, hown, hres]
  · intro s adId rid h1 h2 hnone
    unfold V2.createReservation
    simp [h1, h2, hnone]
  · intro s adId rid a h1 h2 ha hsf
    unfold V2.createReservation
    simp [h1, h2, ha, hsf]
  · intro s adId rid a h1 h2 ha hsf hown
    unfold V2.createReservation
    simp [h1, h2, ha, hsf, hown]
  · intro s adId rid a h1 h2 ha hsf hown hres
    unfold V2.createReservation
    simp [h1, h2, ha, hsf, hown, hres]

/-- C3 (witness): the nine precondition failures on the concrete store:
missing ad, missing requester, street find (both variants), the owner
reserving their own ad (both variants), and the already-reserved ad of
`dbPending` (both variants). -/
theorem C3_createReservation_preconditions_witness :
    V1.createReservation dbOpen "nope" "req1" = Except.error errAdNotFound ∧
    V1.createReservation dbOpen "adX" "ghost" = Except.error errRequesterNotFound ∧
    V1.createReservation dbStreet "adY" "req1" = Except.error errStreetFindNotReservable ∧
    V1.createReservation dbOpen "adX" "owner1" = Except.error errOwnAd ∧
    V1.createReservation dbPending "adX" "req2" = Except.error errAlreadyReserved ∧
    V2.createReservation dbOpen "nope" "req1" = Except.error errAdNotFound ∧
    V2.createReservation dbStreet "adY" "req1" = Except.error errStreetFindNotReservable ∧
    V2.createReservation dbOpen "adX" "owner1" = Except.error errOwnAd ∧
    V2.createReservation dbPending "adX" "req2" = Except.error errAlreadyReserved :=
  ⟨C3_createReservation_preconditions.1 dbOpen "nope" "req1" (by rfl) (by rfl) (by rfl),
   C3_createReservation_preconditions.2.1 dbOpen "adX" "ghost" adOpen
      (by rfl) (by rfl) (by rfl) (by rfl),
   C3_createReservation_preconditions.2.2.1 dbStreet "adY" "req1" adStreet brunoRec
      (by rfl) (by rfl) (by rfl) (by rfl) (by rfl),
   C3_createReservation_preconditions.2.2.2.1 dbOpen "adX" "owner1" adOpen annaRec
      (by rfl) (by rfl) (by rfl) (by rfl) (by rfl) (by rfl),
   C3_createReservation_preconditions.2.2.2.2.1 dbPending "adX" "req2" adPendingRec carlaRec
      (by rfl) (by rfl) (by rfl) (by rfl) (by rfl) (by decide) (by rfl),
   C3_createReservation_preconditions.2.2.2.2.2.1 dbOpen "nope" "req1"
      (by rfl) (by rfl) (by rfl),
   C3_createReservation_preconditions.2.2.2.2.2.2.1 dbStreet "adY" "req1" adStreet
      (by rfl) (by rfl) (by rfl) (by rfl),
   C3_createReservation_preconditions.2.2.2.2.2.2.2.1 dbOpen "adX" "owner1" adOpen
      (by rfl) (by rfl) (by rfl) (by rfl) (by rfl),
   C3_createReservation_preconditions.2.2.2.2.2.2.2.2 dbPending "adX" "req2" adPendingRec
      (by rfl) (by rfl) (by rfl) (by rfl) (by decide) (by rfl)⟩

/-!
## C9 / C10 — `claimStreetFind`
-/

/-- `dbStreet` after a claim whose `adOwnerId`/`adTitle` arguments do
not match the stored ad (owner argument `req2`, title `Altra`). -/
def dbClaimedWrong : DB :=
  okState (V1.claimStreetFind dbStreet "adY" "req1" "req2" "Altra") dbOpen

/-- C9: `claimStreetFind` fails with the specific domain error — and,
by the all-or-nothing transaction, changes nothing — when the ad is not
a street find or is already COMPLETED (so only the first valid claimant
succeeds); otherwise it succeeds in a single step, setting
`isReserved := true`, `reservedByUserId := pickerUserId`,
`reservationStatus := COMPLETED`, and appending exactly one
STREET_FIND_PICKED_UP notification addressed to the `adOwnerId`
argument. -/
theorem C9_claimStreetFind_contract :
    (∀ s adId picker owner title a p, isValidId adId = true → isValidId picker = true →
      isValidId owner = true → findDoc s.ads adId = some a →
      findDoc s.users picker = some p → a.isStreetFind = false →
      V1.claimStreetFind s adId picker owner title = Except.error errNotStreetFind) ∧
    (∀ s adId picker owner title a p, isValidId adId = true → isValidId picker = true →
      isValidId owner = true → findDoc s.ads adId = some a →
      findDoc s.users picker = some p → a.isStreetFind = true →
      a.reservationStatus = some ReservationStatus.completed →
      V1.claimStreetFind s adId picker owner title = Except.error errAlreadyPickedUp) ∧
    (∀ s adId picker owner title a p s', isValidId adId = true → isValidId picker = true →
      isValidId owner = true → findDoc s.ads adId = some a →
      findDoc s.users picker = some p → a.isStreetFind = true →
      a.reservationStatus ≠ some ReservationStatus.completed →
      V1.claimStreetFind s adId picker owner title = Except.ok s' →
      findDoc s'.ads adId = some
        { a with
          isReserved := true
          reservedByUserId := some picker
          reservationStatus := some ReservationStatus.completed } ∧
      notifSummary s' = notifSummary s ++ [(owner, NotificationType.streetFindPickedUp)]) := by
  refine ⟨?_, ?_, ?_⟩
  · intro s adId picker owner title a p h1 h2 h3 ha hp hsf
    unfold V1.claimStreetFind
    simp [h1, h2, h3, ha, hp, hsf]
  · intro s adId picker owner title a p h1 h2 h3 ha hp hsf hcomp
    unfold V1.claimStreetFind
    simp [h1, h2, h3, ha, hp, hsf, hcomp]
  · intro s adId picker owner title a p s' h1 h2 h3 ha hp hsf hcomp h
    unfold V1.claimStreetFind at h
    simp only [h1, h2, h3, ha, hp, hsf, not_true_eq_false, if_false] at h
    rw [if_neg (by simp [hcomp])] at h
    injection h with h
    subst h
    constructor
    · simp only [findDoc_updateDoc_self, ha, Option.map_some']
    · simp [notifSummary]

/-- C9 (witness): claiming the ordinary ad fails as not-street-find;
claiming the already-claimed ad fails as already-picked-up; the valid
claim on `adY` completes the ad and notifies `owner1`. -/
theorem C9_claimStreetFind_contract_witness :
    V1.claimStreetFind dbOpen "adX" "req1" "owner1" "Lampada" =
      Except.error errNotStreetFind ∧
    V1.claimStreetFind dbClaimed "adY" "req2" "owner1" "Sedia" =
      Except.error errAlreadyPickedUp ∧
    (findDoc dbClaimed.ads "adY" = some
      { adStreet with
        isReserved := true
        reservedByUserId := some "req1"
        reservationStatus := some ReservationStatus.completed } ∧
     notifSummary dbClaimed = notifSummary dbStreet ++
       [("owner1", NotificationType.streetFindPickedUp)]) :=
  ⟨C9_claimStreetFind_contract.1 dbOpen "adX" "req1" "owner1" "Lampada" adOpen brunoRec
      (by rfl) (by rfl) (by rfl) (by rfl) (by rfl) (by rfl),
   C9_claimStreetFind_contract.2.1 dbClaimed "adY" "req2" "owner1" "Sedia" adClaimedRec
      carlaRec (by rfl) (by rfl) (by rfl) (by rfl) (by rfl) (by rfl) (by rfl),
   C9_claimStreetFind_contract.2.2 dbStreet "adY" "req1" "owner1" "Sedia" adStreet brunoRec
      dbClaimed (by rfl) (by rfl) (by rfl) (by rfl) (by rfl) (by rfl) (by decide) (by rfl)⟩

/-- C10: on a successful `claimStreetFind`, the single appended
STREET_FIND_PICKED_UP notification is addressed to the caller-supplied
`adOwnerId` argument and its title/message are built from the
caller-supplied `adTitle` argument; the operation succeeds even when
`adOwnerId` differs from the stored ad's `userId` (no cross-check is
performed), so a mismatching caller notifies the wrong user. -/
theorem C10_claimStreetFind_notifies_callerSuppliedOwner :
    ∀ s adId picker owner title a p s', isValidId adId = true → isValidId picker = true →
      isValidId owner = true → findDoc s.ads adId = some a →
      findDoc s.users picker = some p → a.isStreetFind = true →
      a.reservationStatus ≠ some ReservationStatus.completed →
      owner ≠ a.userId →
      V1.claimStreetFind s adId picker owner title = Except.ok s' →
      s'.notifications = s.notifications ++ [(genId s.nextId,
        { userId := owner
          type := NotificationType.streetFindPickedUp
          title := "Oggetto " ++ title ++ " ritirato"
          message := getUserDisplayName p ++ " ha segnato il tuo oggetto " ++ title ++
            " come ritirato dalla strada."
          relatedItemId := adId
          isRead := false
          reservationDetails := none })] := by
  intro s adId picker owner title a p s' h1 h2 h3 ha hp hsf hcomp hmismatch h
  unfold V1.claimStreetFind at h
  simp only [h1, h2, h3, ha, hp, hsf, not_true_eq_false, if_false] at h
  rw [if_neg (by simp [hcomp])] at h
  injection h with h
  subst h
  rfl

/-- C10 (witness): claiming `adY` with owner argument `req2` (not the
stored owner `owner1`) and title argument `Altra` succeeds and appends
the notification addressed to `req2` with the caller's title. -/
theorem C10_claimStreetFind_notifies_callerSuppliedOwner_witness :
    dbClaimedWrong.notifications = dbStreet.notifications ++ [(genId dbStreet.nextId,
      { userId := "req2"
        type := NotificationType.streetFindPickedUp
        title := "Oggetto " ++ "Altra" ++ " ritirato"
        message := getUserDisplayName brunoRec ++ " ha segnato il tuo oggetto " ++ "Altra" ++
          " come ritirato dalla strada."
        relatedItemId := "adY"
        isRead := false
        reservationDetails := none })] :=
  C10_claimStreetFind_notifies_callerSuppliedOwner dbStreet "adY" "req1" "req2" "Altra"
    adStreet brunoRec dbClaimedWrong (by rfl) (by rfl) (by rfl) (by rfl) (by rfl) (by rfl)
    (by decide) (by decide) (by rfl)

/-!
## C7 / C8 — closed chat sessions
-/

/-- The system message `completeExchangeAndCloseChat` appends. -/
def sysCompleteMsg : ChatMessage :=
  { senderId := "system"
    text := "Scambio completato. Questa chat e stata chiusa."
    isSystemMessage := true }

/-- The chat document `doc_2` of `dbCompleted`: closed by `owner1`. -/
def chatClosedRec : ChatSession :=
  { participantIds := ["owner1", "req1"]
    adId := "adX"
    adTitle := "Lampada"
    lastMessageText := some "Scambio completato. Questa chat e stata chiusa."
    isClosed := true
    closedByUserId := some "owner1"
    reservationWasAccepted := true
    reservationId := some "doc_0"
    messages := [sysCompleteMsg] }

/-- `dbCompleted` after a SECOND `completeExchangeAndCloseChat` on the
already-closed chat `doc_2`, this time by `req1`. -/
def dbCompletedTwice : DB :=
  okState (V1.completeExchangeAndCloseChat dbCompleted "doc_2" "req1") dbOpen

/-- C7: the code has no already-closed check.  Chat `doc_2` of
`dbCompleted` is closed (`isClosed = true`), yet a second
`completeExchangeAndCloseChat` call by the other participant succeeds,
re-runs every write, and emits a second EXCHANGE_COMPLETED notification
(the count goes from 1 to 2); the ad document is written again with the
same COMPLETED value. -/
theorem C7_doubleComplete_reemits_notification :
    (findDoc dbCompleted.chatSessions "doc_2").map ChatSession.isClosed = some true ∧
    notifTypeCount dbCompleted NotificationType.exchangeCompleted = 1 ∧
    V1.completeExchangeAndCloseChat dbCompleted "doc_2" "req1" = Except.ok dbCompletedTwice ∧
    notifTypeCount dbCompletedTwice NotificationType.exchangeCompleted = 2 ∧
    (findDoc dbCompletedTwice.ads "adX").map FirestoreAdData.reservationStatus =
      some (some ReservationStatus.completed) :=
  ⟨by rfl, by rfl, by rfl, by rfl, by rfl⟩

/-- C8 (counterexample): the claim as stated is false.  Chat `doc_2` of
`dbCompleted` is closed, yet `sendChatMessage` is not rejected: it
returns success, appends the message (2 messages where there was 1) and
even resets `isClosed` to `false`. -/
theorem C8_counterexample :
    (findDoc dbCompleted.chatSessions "doc_2").map ChatSession.isClosed = some true ∧
    V1.sendChatMessage dbCompleted "doc_2" "req1" "ciao" =
      Except.ok (okState (V1.sendChatMessage dbCompleted "doc_2" "req1" "ciao") dbOpen) ∧
    (findDoc (okState (V1.sendChatMessage dbCompleted "doc_2" "req1" "ciao") dbOpen).chatSessions
        "doc_2").map (fun c => (c.isClosed, c.messages.length, c.lastMessageText)) =
      some (false, 2, some "ciao") :=
  ⟨by rfl, by rfl, by rfl⟩

/-- C8 (amended): the core performs no closed-session check.  For ANY
stored session — closed or not — `sendChatMessage` succeeds: the message
is appended, the last-message fields are updated, and `isClosed` is
reset to `false` with `closedByUserId` deleted (the chat is reopened).
Rejection of messages to closed chats exists only as UI gating outside
the core. -/
theorem C8_sendChatMessage_ignores_isClosed :
    ∀ s chatId sender text c, isValidId chatId = true → isValidId sender = true →
      findDoc s.chatSessions chatId = some c →
      ∃ s', V1.sendChatMessage s chatId sender text = Except.ok s' ∧
        findDoc s'.chatSessions chatId = some
          { c with
            messages := c.messages ++
              [{ senderId := sender, text := text, isSystemMessage := false }]
            lastMessageText := some text
            isClosed := false
            closedByUserId := none } := by
  intro s chatId sender text c h1 h2 hc
  unfold V1.sendChatMessage
  simp only [h1, h2, hc, not_true_eq_false, if_false]
  cases hfind : c.participantIds.find? (fun p => p != sender) with
  | none =>
    refine ⟨_, rfl, ?_⟩
    simp only [findDoc_updateDoc_self, hc, Option.map_some']
  | some otherId =>
    cases hcont : c.participantIds.contains sender with
    | false =>
      refine ⟨_, rfl, ?_⟩
      simp only [findDoc_updateDoc_self, hc, Option.map_some']
    | true =>
      dsimp only
      by_cases hoe : otherId = ""
      · rw [if_neg (by simp [hoe])]
        exact ⟨_, rfl, by simp only [findDoc_updateDoc_self, hc, Option.map_some']⟩
      · rw [if_pos hoe]
        exact ⟨_, rfl, by simp only [findDoc_updateDoc_self, hc, Option.map_some']⟩

/-- C8 (witness): the amended theorem applied to the closed chat
`doc_2` of `dbCompleted`. -/
theorem C8_sendChatMessage_ignores_isClosed_witness :
    ∃ s', V1.sendChatMessage dbCompleted "doc_2" "req1" "salve" = Except.ok s' ∧
      findDoc s'.chatSessions "doc_2" = some
        { chatClosedRec with
          messages := chatClosedRec.messages ++
            [{ senderId := "req1", text := "salve", isSystemMessage := false }]
          lastMessageText := some "salve"
          isClosed := false
          closedByUserId := none } :=
  C8_sendChatMessage_ignores_isClosed dbCompleted "doc_2" "req1" "salve" chatClosedRec
    (by rfl) (by rfl) (by rfl)

/-!
## C4 — DECLINED promotes the waiting-list head (FIFO)
-/

/-- The ad document of `dbJoined` (`req2` waiting). -/
def adJoinedRec : FirestoreAdData :=
  { adPendingRec with waitingListUserIds := ["req2"] }

/-- `dbJoined` after the owner declines `doc_0`: `req2` is promoted. -/
def dbPromoted : DB :=
  okState (V1.updateReservationStatus dbJoined "doc_0" ReservationStatus.declined "owner1" none)
    dbOpen

/-- `dbPending` (empty waiting list) after the owner declines `doc_0`. -/
def dbDeclined : DB :=
  okState (V1.updateReservationStatus dbPending "doc_0" ReservationStatus.declined "owner1" none)
    dbOpen

/-- A reserved ad whose single waiting-list entry (`ghost`) has no user
document. -/
def dbGhost : DB :=
  { users := baseUsers
    ads := [("adX", { adPendingRec with waitingListUserIds := ["ghost"] })]
    reservations := [("doc_0", resPendingRec)]
    chatSessions := []
    notifications := []
    nextId := 1 }

/-- `dbGhost` after the owner declines `doc_0`. -/
def dbGhostDeclined : DB :=
  okState (V1.updateReservationStatus dbGhost "doc_0" ReservationStatus.declined "owner1" none)
    dbOpen

/-- C4 (counterexample): two parts of the claim fail on the code.
First, the PROMOTED_FROM_WAITING_LIST notification created on promotion
is addressed to the OWNER (`owner1`), not to the promoted user: after
declining with `req2` waiting, the notification trace grows by
`(owner1, PROMOTED_FROM_WAITING_LIST)` and `(req1,
RESERVATION_DECLINED)`, and the number of notifications addressed to the
promoted user `req2` is unchanged.  Second, when the waiting list is
non-empty but its head has no user document, no promotion happens: the
ad's reservation fields are cleared entirely (dropping the waiting
list), although the claim promises promotion for every non-empty list. -/
theorem C4_counterexample :
    notifSummary dbPromoted = notifSummary dbJoined ++
      [("owner1", NotificationType.promotedFromWaitingList),
       ("req1", NotificationType.reservationDeclined)] ∧
    (dbPromoted.notifications.filter (fun n => n.snd.userId == "req2")).length =
      (dbJoined.notifications.filter (fun n => n.snd.userId == "req2")).length ∧
    (findDoc dbGhostDeclined.ads "adX").map
      (fun a => (a.isReserved, a.reservationStatus, a.waitingListUserIds)) =
      some (false, none, []) :=
  ⟨by rfl, by rfl, by rfl⟩

/-- C4 (amended): declining the active reservation marks it DECLINED
and then: when the waiting list is non-empty AND its head has a user
document, a fresh PENDING reservation is created for the head, the ad is
set back to reserved-by-head with status PENDING and the head removed
from the list (strict FIFO: `joinWaitingList` appends at the tail — last
conjunct — and decline dequeues the head), and a
PROMOTED_FROM_WAITING_LIST notification is created for the OWNER — the
promoted user receives no notification; when the waiting list is empty,
or its head's user document is missing, the ad's reservation fields are
cleared (returning it to Open, and in the missing-head case dropping the
remaining waiting list). -/
theorem C4_decline_promotes_fifo :
    (∀ s rid uid onid s' r ad nextU rest nu,
      isValidId rid = true → isValidId uid = true →
      findDoc s.reservations rid = some r → r.ownerId = uid →
      findDoc s.ads r.adId = some ad →
      ad.waitingListUserIds = nextU :: rest →
      findDoc s.users nextU = some nu →
      findDoc s.reservations (genId s.nextId) = none →
      V1.updateReservationStatus s rid ReservationStatus.declined uid onid = Except.ok s' →
      findDoc s'.reservations rid = some { r with status := ReservationStatus.declined } ∧
      findDoc s'.reservations (genId s.nextId) = some
        { adId := r.adId
          adTitle := ad.title
          adMainImage := ad.images.headD ""
          requesterId := nextU
          requesterName := getUserDisplayName nu
          ownerId := ad.userId
          status := ReservationStatus.pending
          chatSessionId := none } ∧
      findDoc s'.ads r.adId = some
        { ad with
          isReserved := true
          reservedByUserId := some nextU
          reservationStatus := some ReservationStatus.pending
          waitingListUserIds := rest } ∧
      notifSummary s' = notifSummary s ++
        [(ad.userId, NotificationType.promotedFromWaitingList),
         (r.requesterId, NotificationType.reservationDeclined)]) ∧
    (∀ s rid uid onid s' r ad,
      isValidId rid = true → isValidId uid = true →
      findDoc s.reservations rid = some r → r.ownerId = uid →
      findDoc s.ads r.adId = some ad →
      ad.waitingListUserIds = [] →
      V1.updateReservationStatus s rid ReservationStatus.declined uid onid = Except.ok s' →
      findDoc s'.reservations rid = some { r with status := ReservationStatus.declined } ∧
      findDoc s'.ads r.adId = some
        { ad with
          isReserved := false
          reservedByUserId := none
          reservationStatus := none
          waitingListUserIds := [] } ∧
      notifSummary s' = notifSummary s ++
        [(r.requesterId, NotificationType.reservationDeclined)]) ∧
    (∀ s rid uid onid s' r ad nextU rest,
      isValidId rid = true → isValidId uid = true →
      findDoc s.reservations rid = some r → r.ownerId = uid →
      findDoc s.ads r.adId = some ad →
      ad.waitingListUserIds = nextU :: rest →
      findDoc s.users nextU = none →
      V1.updateReservationStatus s rid ReservationStatus.declined uid onid = Except.ok s' →
      findDoc s'.reservations rid = some { r with status := ReservationStatus.declined } ∧
      findDoc s'.ads r.adId = some
        { ad with
          isReserved := false
          reservedByUserId := none
          reservationStatus := none
          waitingListUserIds := [] } ∧
      notifSummary s' = notifSummary s ++
        [(r.requesterId, NotificationType.reservationDeclined)]) ∧
    (∀ s adId uid s' a, V1.joinWaitingList s adId uid = Except.ok s' →
      findDoc s.ads adId = some a →
      (findDoc s'.ads adId).map FirestoreAdData.waitingListUserIds =
        some (a.waitingListUserIds ++ [uid])) := by
  refine ⟨?_, ?_, ?_, ?_⟩
  · intro s rid uid onid s' r ad nextU rest nu h1 h2 hr hauth ha hwl hnu hfresh h
    have hne : genId s.nextId ≠ rid := by
      intro e
      rw [e, hr] at hfresh
      cases hfresh
    unfold V1.updateReservationStatus at h
    simp only [h1, h2, hr, ha, hwl, hnu, hauth, not_true_eq_false, if_false,
      show (ReservationStatus.declined == ReservationStatus.accepted) = false from rfl,
      show (ReservationStatus.declined == ReservationStatus.declined) = true from rfl,
      Bool.false_eq_true, if_true, ne_eq, not_false_eq_true] at h
    split at h
    · exact absurd h (by simp)
    rename_i s2 hs2
    obtain ⟨hs2u, hs2ads, hs2res, hs2chat, hs2next, hs2notif⟩ :=
      markOriginalNotification_ok _ _ _ hs2
    dsimp only at hs2ads hs2res hs2next
    unfold notifSummary at hs2notif
    dsimp only at hs2notif
    unfold V1.declinedRequesterNotify at h
    injection h with h
    subst h
    refine ⟨?_, ?_, ?_, ?_⟩
    · dsimp only
      rw [hs2res, hs2next]
      rw [findDoc_append_left _ _ rid _ (by
        rw [findDoc_updateDoc_self, hr, Option.map_some'])]
    · dsimp only
      rw [hs2res, hs2next]
      rw [findDoc_append_right _ _ _ (by
        rw [findDoc_updateDoc_ne _ _ _ _ hne, hfresh]), findDoc_cons, if_pos rfl]
    · dsimp only
      rw [hs2ads, findDoc_updateDoc_self, ha, Option.map_some']
    · dsimp only
      unfold notifSummary
      dsimp only
      simp only [List.map_append, hs2notif, List.append_assoc]
      rfl
  · intro s rid uid onid s' r ad h1 h2 hr hauth ha hwl h
    unfold V1.updateReservationStatus at h
    simp only [h1, h2, hr, ha, hwl, hauth, not_true_eq_false, if_false,
      show (ReservationStatus.declined == ReservationStatus.accepted) = false from rfl,
      show (ReservationStatus.declined == ReservationStatus.declined) = true from rfl,
      Bool.false_eq_true, if_true, ne_eq, not_false_eq_true] at h
    split at h
    · exact absurd h (by simp)
    rename_i s2 hs2
    obtain ⟨hs2u, hs2ads, hs2res, hs2chat, hs2next, hs2notif⟩ :=
      markOriginalNotification_ok _ _ _ hs2
    dsimp only at hs2ads hs2res hs2next
    unfold notifSummary at hs2notif
    dsimp only at hs2notif
    unfold V1.declinedRequesterNotify at h
    injection h with h
    subst h
    refine ⟨?_, ?_, ?_⟩
    · dsimp only
      rw [hs2res, findDoc_updateDoc_self, hr, Option.map_some']
    · dsimp only
      rw [hs2ads, findDoc_updateDoc_self, ha, Option.map_some']
    · dsimp only
      unfold notifSummary
      dsimp only
      simp only [List.map_append, hs2notif, List.append_assoc]
      rfl
  · intro s rid uid onid s' r ad nextU rest h1 h2 hr hauth ha hwl hghost h
    unfold V1.updateReservationStatus at h
    simp only [h1, h2, hr, ha, hwl, hghost, hauth, not_true_eq_false, if_false,
      show (ReservationStatus.declined == ReservationStatus.accepted) = false from rfl,
      show (ReservationStatus.declined == ReservationStatus.declined) = true from rfl,
      Bool.false_eq_true, if_true, ne_eq, not_false_eq_true] at h
    split at h
    · exact absurd h (by simp)
    rename_i s2 hs2
    obtain ⟨hs2u, hs2ads, hs2res, hs2chat, hs2next, hs2notif⟩ :=
      markOriginalNotification_ok _ _ _ hs2
    dsimp only at hs2ads hs2res hs2next
    unfold notifSummary at hs2notif
    dsimp only at hs2notif
    unfold V1.declinedRequesterNotify at h
    injection h with h
    subst h
    refine ⟨?_, ?_, ?_⟩
    · dsimp only
      rw [hs2res, findDoc_updateDoc_self, hr, Option.map_some']
    · dsimp only
      rw [hs2ads, findDoc_updateDoc_self, ha, Option.map_some']
    · dsimp only
      unfold notifSummary
      dsimp only
      simp only [List.map_append, hs2notif, List.append_assoc]
      rfl
  · intro s adId uid s' a h ha
    unfold V1.joinWaitingList at h
    split at h
    · exact absurd h (by simp)
    split at h
    · exact absurd h (by simp)
    split at h
    · exact absurd h (by simp)
    rename_i adData hAdFound
    split at h
    · exact absurd h (by simp)
    split at h
    · exact absurd h (by simp)
    split at h
    · exact absurd h (by simp)
    split at h
    · exact absurd h (by simp)
    split at h
    · exact absurd h (by simp)
    split at h
    · exact absurd h (by simp)
    split at h
    · exact absurd h (by simp)
    obtain rfl : adData = a := Option.some.inj (hAdFound.symm.trans ha)
    injection h with h
    subst h
    simp only [findDoc_updateDoc_self, ha, Option.map_some']

/-- C4 (witness): the amended theorem on the concrete store: declining
with `req2` waiting (promotion), declining with an empty list (back to
Open), declining with a dangling waiting-list head (cleared), and the
FIFO append of `joinWaitingList`. -/
theorem C4_decline_promotes_fifo_witness :
    (findDoc dbPromoted.reservations "doc_0" =
        some { resPendingRec with status := ReservationStatus.declined } ∧
      findDoc dbPromoted.reservations "doc_4" = some
        { adId := "adX"
          adTitle := adJoinedRec.title
          adMainImage := adJoinedRec.images.headD ""
          requesterId := "req2"
          requesterName := getUserDisplayName carlaRec
          ownerId := adJoinedRec.userId
          status := ReservationStatus.pending
          chatSessionId := none } ∧
      findDoc dbPromoted.ads "adX" = some
        { adJoinedRec with
          isReserved := true
          reservedByUserId := some "req2"
          reservationStatus := some ReservationStatus.pending
          waitingListUserIds := [] } ∧
      notifSummary dbPromoted = notifSummary dbJoined ++
        [(adJoinedRec.userId, NotificationType.promotedFromWaitingList),
         (resPendingRec.requesterId, NotificationType.reservationDeclined)]) ∧
    (findDoc dbDeclined.reservations "doc_0" =
        some { resPendingRec with status := ReservationStatus.declined } ∧
      findDoc dbDeclined.ads "adX" = some
        { adPendingRec with
          isReserved := false
          reservedByUserId := none
          reservationStatus := none
          waitingListUserIds := [] } ∧
      notifSummary dbDeclined = notifSummary dbPending ++
        [(resPendingRec.requesterId, NotificationType.reservationDeclined)]) ∧
    (findDoc dbGhostDeclined.reservations "doc_0" =
        some { resPendingRec with status := ReservationStatus.declined } ∧
      findDoc dbGhostDeclined.ads "adX" = some
        { { adPendingRec with waitingListUserIds := ["ghost"] } with
          isReserved := false
          reservedByUserId := none
          reservationStatus := none
          waitingListUserIds := [] } ∧
      notifSummary dbGhostDeclined = notifSummary dbGhost ++
        [(resPendingRec.requesterId, NotificationType.reservationDeclined)]) ∧
    (findDoc dbJoined.ads "adX").map FirestoreAdData.waitingListUserIds =
      some (adPendingRec.waitingListUserIds ++ ["req2"]) :=
  ⟨C4_decline_promotes_fifo.1 dbJoined "doc_0" "owner1" none dbPromoted resPendingRec
      adJoinedRec "req2" [] carlaRec (by rfl) (by rfl) (by rfl) (by rfl) (by rfl) (by rfl)
      (by rfl) (by rfl) (by rfl),
   C4_decline_promotes_fifo.2.1 dbPending "doc_0" "owner1" none dbDeclined resPendingRec
      adPendingRec (by rfl) (by rfl) (by rfl) (by rfl) (by rfl) (by rfl) (by rfl),
   C4_decline_promotes_fifo.2.2.1 dbGhost "doc_0" "owner1" none dbGhostDeclined resPendingRec
      { adPendingRec with waitingListUserIds := ["ghost"] } "ghost" []
      (by rfl) (by rfl) (by rfl) (by rfl) (by rfl) (by rfl) (by rfl) (by rfl),
   C4_decline_promotes_fifo.2.2.2 dbPending "adX" "req2" dbJoined adPendingRec
      (by rfl) (by rfl)⟩

/-!
## C5 — one chat session per (unordered participant pair, adId)
-/

/-- `createChatSession` called on `dbAccepted` with the pair REVERSED:
it must find and reuse chat `doc_2`. -/
def chatReuseRun : Except String (DB × String) :=
  V1.createChatSession dbAccepted ["req1", "owner1"] "adX" "Lampada" none true

/-- The state component of `chatReuseRun`. -/
def dbChatReuse : DB :=
  match chatReuseRun with
  | .ok p => p.1
  | .error _ => dbOpen

/-- `dbAccepted` after the accepted reservation is declined: the ad is
Open again but chat `doc_2` remains. -/
def dbReopened : DB :=
  okState (V1.updateReservationStatus dbAccepted "doc_0" ReservationStatus.declined "owner1" none)
    dbOpen

/-- `dbReopened` after `req1` reserves `adX` a second time
(reservation `doc_5`). -/
def dbReReserved : DB := okState (V1.createReservation dbReopened "adX" "req1") dbOpen

/-- `dbReReserved` after the owner accepts `doc_5`: the accept path must
reuse chat `doc_2` instead of creating a second session. -/
def dbReAccepted : DB :=
  okState
    (V1.updateReservationStatus dbReReserved "doc_5" ReservationStatus.accepted "owner1" none)
    dbOpen

/-- C5: for one (unordered participant pair, adId) key at most one chat
session ever exists.  First conjunct: when `createChatSession` finds an
existing session for the sorted key (document ids unique), it creates no
new document (the id set is unchanged), returns that session's id, and
reopens it — `isClosed` reset to `false`, `closedByUserId` cleared when
it was closed, `reservationWasAccepted` set when requested.  Second
conjunct: the chat-creation step inside `updateReservationStatus` on
ACCEPTED likewise reuses an existing session for the pair — no new
document, the session reopened with `reservationWasAccepted := true` and
re-linked, and the reservation's `chatSessionId` pointing back at it.
Third conjunct: the lookup key is order-independent (canonical sort). -/
theorem C5_chatSession_unique_per_pair :
    (∀ s p1 p2 adId title rsv acc cid c s' sid,
      isValidId p1 = true → isValidId p2 = true → isValidId adId = true →
      keysNodup s.chatSessions →
      findChatByKey s (sortIds [p1, p2]) adId = some (cid, c) →
      V1.createChatSession s [p1, p2] adId title rsv acc = Except.ok (s', sid) →
      sid = cid ∧
      s'.chatSessions.map Prod.fst = s.chatSessions.map Prod.fst ∧
      findDoc s'.chatSessions cid = some
        { c with
          reservationWasAccepted := c.reservationWasAccepted || acc
          isClosed := false
          closedByUserId := if c.isClosed then none else c.closedByUserId }) ∧
    (∀ s rid uid onid s' r ad cid c,
      isValidId rid = true → isValidId uid = true →
      keysNodup s.chatSessions →
      findDoc s.reservations rid = some r → r.ownerId = uid →
      findDoc s.ads r.adId = some ad →
      findChatByKey s (sortIds [r.ownerId, r.requesterId]) r.adId = some (cid, c) →
      V1.updateReservationStatus s rid ReservationStatus.accepted uid onid = Except.ok s' →
      s'.chatSessions.map Prod.fst = s.chatSessions.map Prod.fst ∧
      findDoc s'.chatSessions cid = some
        { c with
          isClosed := false
          closedByUserId := none
          reservationWasAccepted := true
          reservationId := some rid } ∧
      findDoc s'.reservations rid = some
        { r with status := ReservationStatus.accepted, chatSessionId := some cid }) ∧
    (∀ a b, sortIds [a, b] = sortIds [b, a]) := by
  refine ⟨?_, ?_, sortIds_pair_comm⟩
  · intro s p1 p2 adId title rsv acc cid c s' sid h1 h2 h3 hnd hchat h
    unfold V1.createChatSession at h
    simp only [List.length_cons, List.length_nil, List.headD_cons, List.getD,
      List.get?_cons_succ, List.get?_cons_zero, Option.getD_some, h1, h2, h3,
      not_true_eq_false, if_false, hchat] at h
    rw [if_neg (by simp)] at h
    injection h with h
    injection h with hs hsid
    subst hs
    subst hsid
    obtain ⟨hmem, hpids, hadid⟩ := findChatByKey_some s _ adId cid c hchat
    have hcf : findDoc s.chatSessions cid = some c := findDoc_eq_of_mem_nodup _ _ _ hmem hnd
    dsimp only
    refine ⟨rfl, map_updateDoc _ _ _ _ (fun k v => rfl), ?_⟩
    rw [findDoc_updateDoc_self, hcf, Option.map_some']
    obtain ⟨cpids, cadid, ctitle, clast, cclosed, cby, crwa, crid, cmsgs⟩ := c
    cases cclosed <;> cases acc <;> cases crwa <;> rfl
  · intro s rid uid onid s' r ad cid c h1 h2 hnd hr hauth ha hchat h
    subst hauth
    unfold V1.updateReservationStatus at h
    simp only [h1, h2, hr, ha, hchat, not_true_eq_false, if_false,
      show (ReservationStatus.accepted == ReservationStatus.accepted) = true from rfl,
      if_true, ne_eq, not_true, not_false_eq_true, Option.map_some'] at h
    split at h
    · exact absurd h (by simp)
    rename_i s2 hs2
    obtain ⟨hs2u, hs2ads, hs2res, hs2chat, hs2next, hs2notif⟩ :=
      markOriginalNotification_ok _ _ _ hs2
    dsimp only at hs2ads hs2res hs2chat hs2next
    injection h with h
    subst h
    obtain ⟨hmem, hpids, hadid⟩ := findChatByKey_some s _ _ cid c hchat
    have hcf : findDoc s.chatSessions cid = some c := findDoc_eq_of_mem_nodup _ _ _ hmem hnd
    refine ⟨?_, ?_, ?_⟩
    · dsimp only
      rw [hs2chat]
      exact map_updateDoc _ _ _ _ (fun k v => rfl)
    · dsimp only
      rw [hs2chat, findDoc_updateDoc_self, hcf, Option.map_some']
    · dsimp only
      rw [hs2res, findDoc_updateDoc_self, findDoc_updateDoc_self, hr, Option.map_some',
        Option.map_some']

/-- C5 (witness): calling `createChatSession` on `dbAccepted` with the
pair reversed reuses chat `doc_2` and creates nothing; accepting the
second-cycle reservation `doc_5` of `dbReReserved` likewise reuses
`doc_2`, re-linking it; and the concrete sort keys agree. -/
theorem C5_chatSession_unique_per_pair_witness :
    ("doc_2" : String) = "doc_2" ∧
    dbChatReuse.chatSessions.map Prod.fst = dbAccepted.chatSessions.map Prod.fst ∧
    findDoc dbChatReuse.chatSessions "doc_2" = some
      { chatAcceptedRec with
        reservationWasAccepted := chatAcceptedRec.reservationWasAccepted || true
        isClosed := false
        closedByUserId :=
          if chatAcceptedRec.isClosed then none else chatAcceptedRec.closedByUserId } ∧
    (dbReAccepted.chatSessions.map Prod.fst = dbReReserved.chatSessions.map Prod.fst ∧
      findDoc dbReAccepted.chatSessions "doc_2" = some
        { chatAcceptedRec with
          isClosed := false
          closedByUserId := none
          reservationWasAccepted := true
          reservationId := some "doc_5" } ∧
      findDoc dbReAccepted.reservations "doc_5" = some
        { resPendingRec with
          status := ReservationStatus.accepted
          chatSessionId := some "doc_2" }) ∧
    sortIds ["req1", "owner1"] = sortIds ["owner1", "req1"] :=
  have h1 := C5_chatSession_unique_per_pair.1 dbAccepted "req1" "owner1" "adX" "Lampada"
    none true "doc_2" chatAcceptedRec dbChatReuse "doc_2" (by rfl) (by rfl) (by rfl)
    (by decide) (by rfl) (by rfl)
  have h2 := C5_chatSession_unique_per_pair.2.1 dbReReserved "doc_5" "owner1" none
    dbReAccepted resPendingRec adPendingRec "doc_2"
    chatAcceptedRec (by rfl) (by rfl) (by decide) (by rfl) (by rfl) (by rfl) (by rfl) (by rfl)
  ⟨h1.1, h1.2.1, h1.2.2, ⟨h2.1, h2.2.1, h2.2.2⟩,
   C5_chatSession_unique_per_pair.2.2 "req1" "owner1"⟩

/-!
## C2 — at most one PENDING/ACCEPTED per ad; accept auto-declines the rest
-/

/-- Two requesters both create reservations on `adX` through the batch
variant (`createReservation` there never sets `isReserved`). -/
def dbV2Double : DB :=
  okState ((V2.createReservation dbOpen "adX" "req1").bind (fun t =>
    V2.createReservation t "adX" "req2")) dbOpen

/-- The reservation document `doc_2` of `dbV2Double` (req2's request). -/
def resPending2Rec : Reservation :=
  { adId := "adX"
    adTitle := "Lampada"
    adMainImage := ""
    requesterId := "req2"
    requesterName := "Carla D."
    ownerId := "owner1"
    status := ReservationStatus.pending
    chatSessionId := none }

/-- `dbV2Double` after the owner accepts `doc_0` (batch variant). -/
def dbV2Accepted : DB :=
  okState
    (V2.updateReservationStatus dbV2Double "doc_0" ReservationStatus.accepted "owner1" none)
    dbOpen

/-- C2 (counterexample): the at-most-one invariant is false on the
batch variant: `createReservation(adX, req1)` followed by
`createReservation(adX, req2)` both succeed (the batch variant never
marks the ad reserved), leaving two distinct reservations for the same
ad that are simultaneously PENDING. -/
theorem C2_counterexample :
    (findDoc dbV2Double.reservations "doc_0").map
        (fun r => (r.adId, r.status)) = some ("adX", ReservationStatus.pending) ∧
    (findDoc dbV2Double.reservations "doc_2").map
        (fun r => (r.adId, r.status)) = some ("adX", ReservationStatus.pending) ∧
    ("doc_0" : String) ≠ "doc_2" ∧
    (findDoc dbV2Double.ads "adX").map FirestoreAdData.isReserved = some false :=
  ⟨by rfl, by rfl, by decide, by rfl⟩

/-- C2 (amended): in the batch variant, when `updateReservationStatus`
sets one reservation to ACCEPTED, every OTHER reservation of the same ad
that was PENDING is simultaneously marked DECLINED in the same batch
commit, with a RESERVATION_DECLINED notification for its requester
(first conjunct).  In the transactional variant the accept path contains
no auto-decline: every other reservation document is left exactly as it
was (second conjunct).  The global invariant "at most one PENDING or
ACCEPTED reservation per ad at any time" does not hold in the batch
variant, where two requesters can hold simultaneous PENDING reservations
between creation and acceptance (see the counterexample). -/
theorem C2_accept_autodeclines_other_pending :
    (∀ s rid uid s' r ad rid2 r2,
      isValidId rid = true → isValidId uid = true →
      findDoc s.reservations rid = some r → r.ownerId = uid →
      findDoc s.ads r.adId = some ad →
      findDoc s.reservations rid2 = some r2 → rid2 ≠ rid →
      r2.adId = r.adId → r2.status = ReservationStatus.pending →
      V2.updateReservationStatus s rid ReservationStatus.accepted uid none = Except.ok s' →
      findDoc s'.reservations rid2 = some { r2 with status := ReservationStatus.declined } ∧
      (r2.requesterId, NotificationType.reservationDeclined) ∈ notifSummary s') ∧
    (∀ s rid uid onid s' rid2, rid2 ≠ rid →
      V1.updateReservationStatus s rid ReservationStatus.accepted uid onid = Except.ok s' →
      findDoc s'.reservations rid2 = findDoc s.reservations rid2) := by
  constructor
  · intro s rid uid s' r ad rid2 r2 h1 h2 hr hauth ha hr2 hne had hst h
    subst hauth
    have hmem2 : (rid2, r2) ∈ s.reservations := mem_of_findDoc _ _ _ hr2
    have hfilt : (rid2, r2) ∈ (s.reservations.filter (fun e =>
        e.snd.adId == r.adId && e.snd.status == ReservationStatus.pending)).filter
        (fun e => e.fst != rid) := by
      rw [List.mem_filter]
      refine ⟨List.mem_filter.mpr ⟨hmem2, ?_⟩, ?_⟩
      · simp [had, hst]
      · simp [hne]
    have hmemf : rid2 ∈ ((s.reservations.filter (fun e =>
        e.snd.adId == r.adId && e.snd.status == ReservationStatus.pending)).filter
        (fun e => e.fst != rid)).map Prod.fst := List.mem_map_of_mem Prod.fst hfilt
    unfold V2.updateReservationStatus at h
    simp only [h1, h2, hr, ha, markOriginalNotification, not_true_eq_false, if_false,
      show (ReservationStatus.accepted == ReservationStatus.accepted) = true from rfl, if_true,
      ne_eq, not_true, not_false_eq_true] at h
    split at h
    all_goals (injection h with h; subst h)
    all_goals
      obtain ⟨Hu, Ha, Hc, Hn⟩ := foldl_autoDecline_components r.adId r.adTitle
        ((s.reservations.filter (fun e =>
          e.snd.adId == r.adId && e.snd.status == ReservationStatus.pending)).filter
          (fun e => e.fst != rid)) _
    all_goals refine ⟨?_, ?_⟩
    · rw [foldl_autoDecline_find_mem _ _ _ _ _ hmemf]
      dsimp only
      rw [findDoc_updateDoc_ne _ _ _ _ hne, hr2, Option.map_some']
    · rw [Hn]
      refine List.mem_append_right _ ?_
      exact List.mem_map_of_mem _ hfilt
    · rw [foldl_autoDecline_find_mem _ _ _ _ _ hmemf]
      dsimp only
      rw [findDoc_updateDoc_ne _ _ _ _ hne, hr2, Option.map_some']
    · rw [Hn]
      refine List.mem_append_right _ ?_
      exact List.mem_map_of_mem _ hfilt
  · intro s rid uid onid s' rid2 hne h
    unfold V1.updateReservationStatus at h
    split at h
    · exact absurd h (by simp)
    split at h
    · exact absurd h (by simp)
    cases hr : findDoc s.reservations rid with
    | none =>
      rw [hr] at h
      exact absurd h (by simp)
    | some r =>
    rw [hr] at h
    dsimp only at h
    split at h
    · exact absurd h (by simp)
    split at h
    · exact absurd h (by simp)
    split at h
    · exact absurd h (by simp)
    rename_i s2 hs2
    obtain ⟨hs2u, hs2ads, hs2res, hs2chat, hs2next, hs2notif⟩ :=
      markOriginalNotification_ok _ _ _ hs2
    dsimp only at hs2res
    simp only [show (ReservationStatus.accepted == ReservationStatus.accepted) = true from rfl,
      if_true] at h
    split at h
    all_goals (injection h with h; subst h)
    · dsimp only
      rw [findDoc_updateDoc_ne _ _ _ _ hne, hs2res, findDoc_updateDoc_ne _ _ _ _ hne]
    · dsimp only
      rw [findDoc_updateDoc_ne _ _ _ _ hne, hs2res, findDoc_updateDoc_ne _ _ _ _ hne]

/-- C2 (witness): accepting `doc_0` in `dbV2Double` declines `doc_2`
(req2's pending request) and notifies req2; and the transactional
variant's accept on `dbPending` leaves any other reservation id exactly
as it was. -/
theorem C2_accept_autodeclines_other_pending_witness :
    (findDoc dbV2Accepted.reservations "doc_2" =
        some { resPending2Rec with status := ReservationStatus.declined } ∧
      ("req2", NotificationType.reservationDeclined) ∈ notifSummary dbV2Accepted) ∧
    findDoc dbAccepted.reservations "nope" = findDoc dbPending.reservations "nope" :=
  ⟨C2_accept_autodeclines_other_pending.1 dbV2Double "doc_0" "owner1" dbV2Accepted
      resPendingRec adOpen "doc_2" resPending2Rec (by rfl) (by rfl) (by rfl) (by rfl)
      (by rfl) (by rfl) (by decide) (by rfl) (by rfl) (by rfl),
   C2_accept_autodeclines_other_pending.2 dbPending "doc_0" "owner1" none dbAccepted
      "nope" (by decide) (by rfl)⟩

/-!
## C6 — completing an exchange
-/

/-- The reservation document `doc_0` of `dbAccepted`. -/
def resAcceptedRec : Reservation :=
  { resPendingRec with
    status := ReservationStatus.accepted
    chatSessionId := some "doc_2" }

/-- `dbAccepted` completed through the BATCH variant. -/
def dbV2Completed : DB :=
  okState (V2.completeExchangeAndCloseChat dbAccepted "doc_2" "req1") dbOpen

/-- C6 (counterexample): in the transactional variant the claim fails —
after `completeExchangeAndCloseChat(doc_2, owner1)` on `dbAccepted`, the
ad is COMPLETED and the chat closed, but the linked reservation `doc_0`
still has status ACCEPTED: the first variant never reads or writes any
reservation document. -/
theorem C6_counterexample :
    (findDoc dbCompleted.ads "adX").map FirestoreAdData.reservationStatus =
      some (some ReservationStatus.completed) ∧
    (findDoc dbCompleted.chatSessions "doc_2").map ChatSession.isClosed = some true ∧
    findDoc dbCompleted.reservations "doc_0" = some resAcceptedRec ∧
    resAcceptedRec.status = ReservationStatus.accepted ∧
    dbCompleted.reservations = dbAccepted.reservations :=
  ⟨by rfl, by rfl, by rfl, by rfl, by rfl⟩

/-- C6 (amended): in the batch variant the operation behaves as claimed
except for the notification fan-out: for a participant's call, in one
atomic transaction the ad's `reservationStatus` is set to COMPLETED, the
ad's ACCEPTED reservation (resolved by query, document ids unique) is
set to COMPLETED, a system message is appended, the chat is closed with
`closedByUserId`, and an EXCHANGE_COMPLETED notification is written for
EVERY participant — the other participant and the completer (first
conjunct).  The transactional variant performs the ad/message/close
steps and notifies only the other participant, but never touches any
reservation document (second conjunct). -/
theorem C6_completeExchange_contract :
    (∀ s chatId uid s' c ad rrid rr,
      isValidId chatId = true → isValidId uid = true →
      findDoc s.chatSessions chatId = some c →
      c.participantIds.contains uid = true →
      findDoc s.ads c.adId = some ad →
      s.reservations.find? (fun r => r.snd.adId == c.adId &&
        r.snd.status == ReservationStatus.accepted) = some (rrid, rr) →
      keysNodup s.reservations →
      V2.completeExchangeAndCloseChat s chatId uid = Except.ok s' →
      findDoc s'.ads c.adId =
        some { ad with reservationStatus := some ReservationStatus.completed } ∧
      findDoc s'.reservations rrid = some { rr with status := ReservationStatus.completed } ∧
      findDoc s'.chatSessions chatId = some
        { c with
          isClosed := true
          closedByUserId := some uid
          lastMessageText := some "Scambio completato"
          messages := c.messages ++
            [{ senderId := "system", text := "Scambio completato", isSystemMessage := true }] } ∧
      notifSummary s' = notifSummary s ++
        c.participantIds.map (fun pid => (pid, NotificationType.exchangeCompleted))) ∧
    (∀ s chatId uid s', V1.completeExchangeAndCloseChat s chatId uid = Except.ok s' →
      s'.reservations = s.reservations) := by
  constructor
  · intro s chatId uid s' c ad rrid rr h1 h2 hc hp ha hres hnd h
    have hrr : findDoc s.reservations rrid = some rr :=
      findDoc_eq_of_mem_nodup _ _ _ (List.mem_of_find?_eq_some hres) hnd
    unfold V2.completeExchangeAndCloseChat at h
    simp only [h1, h2, hc, hp, ha, hres, not_true_eq_false, if_false] at h
    injection h with h
    subst h
    obtain ⟨Hu, Ha, Hr, Hc, Hn⟩ := foldl_exchangeNotify c.adId c.adTitle c.participantIds _
    refine ⟨?_, ?_, ?_, ?_⟩
    · rw [Ha]
      dsimp only
      rw [findDoc_updateDoc_self, ha, Option.map_some']
    · rw [Hr]
      dsimp only
      rw [findDoc_updateDoc_self, hrr, Option.map_some']
    · rw [Hc]
      dsimp only
      rw [findDoc_updateDoc_self, hc, Option.map_some']
    · rw [Hn]
      congr 1
  · intro s chatId uid s' h
    unfold V1.completeExchangeAndCloseChat at h
    split at h
    · exact absurd h (by simp)
    split at h
    · exact absurd h (by simp)
    split at h
    · exact absurd h (by simp)
    split at h
    · exact absurd h (by simp)
    split at h
    · exact absurd h (by simp)
    split at h
    · injection h with h
      subst h
      rfl
    · injection h with h
      subst h
      rfl

/-- C6 (witness): the batch-variant completion of `dbAccepted` by
`req1` completes the ad and reservation `doc_0`, closes chat `doc_2`
with the system message, and notifies both `owner1` and `req1`; the
transactional-variant completion (`dbCompleted`) leaves the reservation
collection untouched. -/
theorem C6_completeExchange_contract_witness :
    (findDoc dbV2Completed.ads "adX" =
        some { adAcceptedRec with reservationStatus := some ReservationStatus.completed } ∧
      findDoc dbV2Completed.reservations "doc_0" =
        some { resAcceptedRec with status := ReservationStatus.completed } ∧
      findDoc dbV2Completed.chatSessions "doc_2" = some
        { chatAcceptedRec with
          isClosed := true
          closedByUserId := some "req1"
          lastMessageText := some "Scambio completato"
          messages := chatAcceptedRec.messages ++
            [{ senderId := "system", text := "Scambio completato", isSystemMessage := true }] } ∧
      notifSummary dbV2Completed = notifSummary dbAccepted ++
        chatAcceptedRec.participantIds.map
          (fun pid => (pid, NotificationType.exchangeCompleted))) ∧
    dbCompleted.reservations = dbAccepted.reservations :=
  ⟨C6_completeExchange_contract.1 dbAccepted "doc_2" "req1" dbV2Completed chatAcceptedRec
      adAcceptedRec "doc_0" resAcceptedRec (by rfl) (by rfl) (by rfl) (by rfl) (by rfl)
      (by rfl) (by decide) (by rfl),
   C6_completeExchange_contract.2 dbAccepted "doc_2" "owner1" dbCompleted (by rfl)⟩


end Stoop
